import Mathlib

/-!
Verification of the agent_games runtime: a shallow embedding of the
request dispatcher, the session store, the canonical serialization
helpers and the bundled tic-tac-toe plugin, together with theorems
settling the specification claims.

Python dictionaries are modelled as association lists of string keys and
JSON-like values; Python exceptions are modelled with `Except`.
-/

namespace AgentGames

/-- JSON-like structured value: the payloads moved between the
dispatcher, the session store and plugins (Python dict / list / str /
int / bool / None). Floats do not occur in the runtime's state. -/
inductive JValue where
  | null
  | bool (b : Bool)
  | int (n : Int)
  | str (s : String)
  | arr (items : List JValue)
  | obj (fields : List (String × JValue))
deriving Inhabited

/-- Association-list lookup, first binding wins (Python dict lookup;
dicts never hold duplicate keys). -/
def alookup {κ α : Type} [DecidableEq κ] (d : List (κ × α)) (k : κ) : Option α :=
  match d with
  | [] => none
  | p :: rest => if p.1 = k then some p.2 else alookup rest k

/-- Key order used by `sort_keys=True`: compare the field names. -/
def keyLE (a b : String × JValue) : Prop := a.1 ≤ b.1

/-- Strict key order, used to show sorted field lists are unique. -/
def keyLT (a b : String × JValue) : Prop := a.1 < b.1

instance : DecidableRel keyLE := fun a b => inferInstanceAs (Decidable (a.1 ≤ b.1))

instance : IsTotal (String × JValue) keyLE := ⟨fun a b => le_total a.1 b.1⟩

instance : IsTrans (String × JValue) keyLE := ⟨fun _ _ _ h1 h2 => le_trans h1 h2⟩

instance : IsAntisymm (String × JValue) keyLT :=
  ⟨fun _ _ h1 h2 => absurd h2 (not_lt.mpr (le_of_lt h1))⟩

/-- Sort an object's fields by key (the `sort_keys=True` part of
`json.dumps`; Python's stable sort agrees with insertion sort). -/
def sortFields (fs : List (String × JValue)) : List (String × JValue) :=
  fs.insertionSort keyLE

mutual

/-- Recursively sort every object's fields by key: the logical content
of `json.dumps(obj, sort_keys=True)` key ordering. -/
def canon : JValue → JValue
  | .null => .null
  | .bool b => .bool b
  | .int n => .int n
  | .str s => .str s
  | .arr items => .arr (canonList items)
  | .obj fields => .obj (sortFields (canonFields fields))

def canonList : List JValue → List JValue
  | [] => []
  | v :: vs => canon v :: canonList vs

def canonFields : List (String × JValue) → List (String × JValue)
  | [] => []
  | (k, v) :: fs => (k, canon v) :: canonFields fs

end

/-- Lower-case hex digit of a value below 16. -/
def hexDigit (n : Nat) : Char :=
  if n < 10 then Char.ofNat (48 + n) else Char.ofNat (87 + n)

/-- JSON string-character escaping as done by `json.dumps` with
`ensure_ascii=False`: quote, backslash and control characters are
escaped, everything else is emitted literally. -/
def escapeChar (c : Char) : String :=
  if c = '"' then "\\\""
  else if c = '\\' then "\\\\"
  else if c.toNat = 8 then "\\b"
  else if c.toNat = 9 then "\\t"
  else if c.toNat = 10 then "\\n"
  else if c.toNat = 12 then "\\f"
  else if c.toNat = 13 then "\\r"
  else if c.toNat < 32 then
    "\\u00" ++ String.mk [hexDigit (c.toNat / 16), hexDigit (c.toNat % 16)]
  else String.mk [c]

/-- JSON encoding of a string, with surrounding quotes. -/
def encodeString (s : String) : String :=
  "\"" ++ String.join (s.data.map escapeChar) ++ "\""

mutual

/-- Serialize a value whose objects are already key-sorted, using the
compact separators `(",", ":")` of `stable_json_dumps`. -/
def encodeRaw : JValue → String
  | .null => "null"
  | .bool b => if b then "true" else "false"
  | .int n => toString n
  | .str s => encodeString s
  | .arr items => "[" ++ encodeItems items ++ "]"
  | .obj fields => "\x7b" ++ encodeMembers fields ++ "\x7d"

def encodeItems : List JValue → String
  | [] => ""
  | [v] => encodeRaw v
  | v :: vs => encodeRaw v ++ "," ++ encodeItems vs

def encodeMembers : List (String × JValue) → String
  | [] => ""
  | [(k, v)] => encodeString k ++ ":" ++ encodeRaw v
  | (k, v) :: fs => encodeString k ++ ":" ++ encodeRaw v ++ "," ++ encodeMembers fs

end

/-- `stable_json_dumps(obj)`: `json.dumps(obj, ensure_ascii=False,
sort_keys=True, separators=(",", ":"))` — keys sorted recursively, no
extraneous whitespace. -/
def stable_json_dumps (v : JValue) : String :=
  encodeRaw (canon v)

/-- `state_hash(obj)`: the SHA-256 hex digest of the canonical encoding.
The digest is modelled as a deterministic computable function of the
encoded string; the claims about hashing depend only on the digest
being a function of the encoded bytes, not on SHA-256 internals. -/
def state_hash (v : JValue) : String :=
  toString ((stable_json_dumps v).foldl (fun h c => h * 31 + c.toNat) 7)

/-! ## Python exceptions -/

/-- Python exceptions that can cross the modelled boundaries. An
`Except.error` of this type escaping `dispatch` models an uncaught
exception reaching the caller. -/
inductive PyError where
  | fileNotFound (msg : String)
  | fileExists (msg : String)
  | valueError (msg : String)
  | attributeError (msg : String)
  | validationError (msg : String)
deriving Inhabited

/-! ## Data model (protocol/models.py and the stored records) -/

/-- A recorded move, the shape of the `last_move` dicts produced by the
bundled plugin and read back by the dispatcher. -/
structure Move where
  player : String
  token : String
  x : Int
  y : Int
deriving Inhabited

/-- Canonical game state. The source keeps it as a plugin-owned dict;
the dispatcher contract needs `game_over`, `winner`, `turn_number` and
`last_move`, and the remaining keys follow the bundled tic-tac-toe
plugin's schema (board, tokens, next player). -/
structure GameState where
  board : List (List String)
  agent_token : String
  opponent_token : String
  next_player : String
  turn_number : Int
  game_over : Bool
  winner : Option String
  last_move : Option Move
deriving Inhabited

def Move.toJ (m : Move) : JValue :=
  .obj [("player", .str m.player), ("token", .str m.token), ("x", .int m.x), ("y", .int m.y)]

def optMoveJ : Option Move → JValue
  | none => .null
  | some m => m.toJ

def optStrJ : Option String → JValue
  | none => .null
  | some s => .str s

def boardJ (b : List (List String)) : JValue :=
  .arr (b.map (fun row => .arr (row.map (fun c => JValue.str c))))

/-- The game-state dict as serialized to disk and hashed. -/
def GameState.toJ (s : GameState) : JValue :=
  .obj [("board", boardJ s.board), ("agent_token", .str s.agent_token),
        ("opponent_token", .str s.opponent_token), ("next_player", .str s.next_player),
        ("turn_number", .int s.turn_number), ("game_over", .bool s.game_over),
        ("winner", optStrJ s.winner), ("last_move", optMoveJ s.last_move)]

/-- The event dicts appended to a turn snapshot by the dispatcher. -/
inductive Event where
  | register (reason agent_id plugin_id : String)
  | action (command reason : String) (args : List (String × JValue)) (move : Option Move)
  | opponent_step (move : Move)
deriving Inhabited

def Event.toJ : Event → JValue
  | .register reason agent_id plugin_id =>
      .obj [("type", .str "register"), ("reason", .str reason),
            ("agent_id", .str agent_id), ("plugin_id", .str plugin_id)]
  | .action command reason args move =>
      .obj [("type", .str "action"), ("command", .str command), ("reason", .str reason),
            ("args", .obj args), ("actor", .str "agent"), ("move", optMoveJ move)]
  | .opponent_step move =>
      .obj [("type", .str "opponent_step"), ("actor", .str "opponent"), ("move", move.toJ)]

/-- One immutable turn file `turns/NNNN.json`. -/
structure Snapshot where
  turn_number : Int
  canonical_state : GameState
  agent_view : JValue
  human_view : JValue
  events : List Event
deriving Inhabited

def Snapshot.toJ (s : Snapshot) : JValue :=
  .obj [("turn_number", .int s.turn_number), ("canonical_state", s.canonical_state.toJ),
        ("agent_view", s.agent_view), ("human_view", s.human_view),
        ("events", .arr (s.events.map Event.toJ))]

/-- Session metadata record `meta.json`. -/
structure Meta where
  session_id : String
  plugin_id : String
  agent_id : String
  protocol_version : String
  options : JValue
deriving Inhabited

/-- The validated `Request` model: strict string fields, optional
`session_id`, `args` defaulting to an empty mapping, mandatory
`reason`. -/
structure Request where
  session_id : Option String
  agent_id : String
  command : String
  args : List (String × JValue)
  reason : String
deriving Inhabited

/-- The `Response` envelope. -/
structure Response where
  ok : Bool
  code : String
  message : String
  data : List (String × JValue)
  turn_advanced : Bool
  turn_number : Int
  game_over : Bool
  winner : Option String
  session_id : Option String
deriving Inhabited

/-- One line of the append-only `log.ndjson` audit trail. -/
structure LogEntry where
  request : Request
  response : Response
  pre_hash : Option String
  post_hash : String
  turn_advanced : Bool
  turn_number : Int
deriving Inhabited

/-! ## Protocol constants -/

/-- Modelled from the spec: `protocol/errors.py` is not among the
sources; §7 fixes the error-code vocabulary and the tests compare codes
against their own names as strings. -/
def OK : String := "OK"

def INVALID_ARGS : String := "INVALID_ARGS"

def NOT_REGISTERED : String := "NOT_REGISTERED"

def UNKNOWN_COMMAND : String := "UNKNOWN_COMMAND"

def NOT_SUPPORTED : String := "NOT_SUPPORTED"

def INVALID_MOVE : String := "INVALID_MOVE"

def GAME_OVER : String := "GAME_OVER"

def INTERNAL_ERROR : String := "INTERNAL_ERROR"

/-- Modelled from the spec: `protocol/version.py` is not among the
sources; no claim depends on the version's value. -/
def PROTOCOL_VERSION : String := "1.0"

/-- Modelled from the spec: `protocol/commands.py` is not among the
sources. §6 fixes the standard vocabulary as a move-style action plus
the informational commands `rules` and `status`/`agent_view`, and §8
uses `reset` as a standard command a plugin may not support. -/
def STANDARD_COMMANDS : List String := ["move", "rules", "status", "agent_view", "reset"]

/-- The framework-level command set of the dispatcher. -/
def FRAMEWORK_COMMANDS : List String := ["ping", "schema", "history", "view", "latest"]

/-! ## Plugin contract (plugins/base.py) -/

/-- Request metadata handed to `execute`. -/
structure RequestMeta where
  session_id : String
  agent_id : String
  reason : String
  turn_number : Int
deriving Inhabited

/-- The plugin capability contract. `execute` returning `.error`
models plugin code raising an exception; its payload on success is
`(result_data, new_state, code, message, action_succeeded)`. The field
`init` is the contract's `initialize`. -/
structure Plugin where
  manifest : List (String × JValue)
  init : JValue → GameState
  is_action : String → Bool
  execute : String → List (String × JValue) → GameState → RequestMeta →
      Except String (List (String × JValue) × GameState × String × String × Bool)
  opponent_step : GameState → GameState
  generate_agent_view : GameState → JValue
  generate_human_view : GameState → JValue

/-- `set(plugin.manifest().get("supported_commands", []))` membership:
for a string command, membership in the Python set coincides with
membership in the list of string-typed entries. -/
def supportedCommands (manifest : List (String × JValue)) : List String :=
  match alookup manifest "supported_commands" with
  | some (.arr items) => items.filterMap (fun v => match v with | .str s => some s | _ => none)
  | _ => []

/-- `copy.deepcopy`: Lean values are immutable, so a deep copy is the
value itself; kept so call sites mirror the source. -/
def deepcopy {α : Type} (x : α) : α := x

/-! ## Session store (runtime/session_store.py) -/

/-- One session directory: `meta.json`, the `turns/` directory as an
association list from file number to snapshot in write order, and the
`log.ndjson` lines. -/
structure SessionData where
  meta : Meta
  turns : List (Int × Snapshot)
  log : List LogEntry
deriving Inhabited

/-- The on-disk session tree plus the state of the uuid4 generator,
modelled as a counter producing successive fresh identifiers. -/
structure Store where
  sessions : List (String × SessionData)
  next_fresh : Nat
deriving Inhabited

def emptyStore : Store := { sessions := [], next_fresh := 0 }

def Store.session? (st : Store) (sid : String) : Option SessionData :=
  alookup st.sessions sid

def Store.update_session (st : Store) (sid : String) (f : SessionData → SessionData) : Store :=
  { st with sessions := st.sessions.map (fun p => if p.1 = sid then (p.1, f p.2) else p) }

/-- Identifier produced by the generation strategy for the n-th
created session. -/
def freshSessionId (n : Nat) : String := "session-" ++ toString n

/-- `SessionStore.create_session`: generate a fresh identifier, fail on
collision (`mkdir(exist_ok=False)`), create the directory with an empty
log and write the metadata record. -/
def Store.create_session (st : Store) (plugin_id agent_id protocol_version : String)
    (options : JValue) : Except PyError (String × Store) :=
  let session_id := freshSessionId st.next_fresh
  match st.session? session_id with
  | some _ => .error (.fileExists session_id)
  | none =>
      .ok (session_id,
        { sessions := st.sessions ++ [(session_id,
            { meta := { session_id := session_id, plugin_id := plugin_id, agent_id := agent_id,
                        protocol_version := protocol_version, options := options },
              turns := [], log := [] })],
          next_fresh := st.next_fresh + 1 })

/-- `SessionStore.read_meta`: reading a missing session's metadata
raises `FileNotFoundError`. -/
def Store.read_meta (st : Store) (sid : String) : Except PyError Meta :=
  match st.session? sid with
  | none => .error (.fileNotFound ("meta for " ++ sid))
  | some s => .ok s.meta

/-- `SessionStore.append_log`: append one line to `log.ndjson`. -/
def Store.append_log (st : Store) (sid : String) (entry : LogEntry) : Except PyError Store :=
  match st.session? sid with
  | none => .error (.fileNotFound ("log for " ++ sid))
  | some _ => .ok (st.update_session sid (fun s => { s with log := s.log ++ [entry] }))

/-- Writing the turn file `NNNN.json`: overwrites the file if that turn
number already exists, otherwise adds it. -/
def writeTurnFile (turns : List (Int × Snapshot)) (tn : Int) (snap : Snapshot) :
    List (Int × Snapshot) :=
  if turns.any (fun p => p.1 = tn) then
    turns.map (fun p => if p.1 = tn then (tn, snap) else p)
  else turns ++ [(tn, snap)]

/-- `SessionStore.write_turn_snapshot`. -/
def Store.write_turn_snapshot (st : Store) (sid : String) (turn_number : Int)
    (canonical_state : GameState) (agent_view human_view : JValue)
    (events_for_turn : List Event) : Except PyError Store :=
  match st.session? sid with
  | none => .error (.fileNotFound ("turns dir for " ++ sid))
  | some _ =>
      let snap : Snapshot :=
        { turn_number := turn_number, canonical_state := canonical_state,
          agent_view := agent_view, human_view := human_view, events := events_for_turn }
      .ok (st.update_session sid (fun s => { s with turns := writeTurnFile s.turns turn_number snap }))

/-- `SessionStore.list_turns`: the turn-file numbers in ascending
order; an empty list when the session directory is missing. -/
def Store.list_turns (st : Store) (sid : String) : List Int :=
  match st.session? sid with
  | none => []
  | some s => (s.turns.map Prod.fst).insertionSort (fun a b => a ≤ b)

/-- `SessionStore.latest_turn`: last element of the sorted turn list,
`FileNotFoundError` when there are no turns. -/
def Store.latest_turn (st : Store) (sid : String) : Except PyError Int :=
  match (st.list_turns sid).getLast? with
  | none => .error (.fileNotFound ("no turns for " ++ sid))
  | some t => .ok t

/-- `SessionStore.read_turn` with an integer turn number: the `%04d`
file name is a bijective image of the integer, so this is lookup by
number; a missing file raises `FileNotFoundError`. -/
def Store.read_turn (st : Store) (sid : String) (turn_number : Int) : Except PyError Snapshot :=
  match st.session? sid with
  | none => .error (.fileNotFound ("session " ++ sid))
  | some s =>
      match alookup s.turns turn_number with
      | none => .error (.fileNotFound ("turn " ++ toString turn_number))
      | some snap => .ok snap

/-- `read_turn` as reached from `view` with the raw `args.turn_number`
value: the `%04d` file-name formatting accepts Python ints and bools (a
bool is an int) and raises `ValueError` on any other value. -/
def Store.read_turn_value (st : Store) (sid : String) (v : JValue) : Except PyError Snapshot :=
  match v with
  | .int n => st.read_turn sid n
  | .bool b => st.read_turn sid (if b then 1 else 0)
  | _ => .error (.valueError "Unknown format code d")

/-- `Dispatcher._load_session`. -/
def load_session (st : Store) (sid : String) : Except PyError (Meta × Snapshot) := do
  let meta ← st.read_meta sid
  let turn_number ← st.latest_turn sid
  let snap ← st.read_turn sid turn_number
  return (meta, snap)

/-! ## Request validation (protocol/models.py) -/

/-- The five envelope fields of `Request`; `extra = "forbid"` rejects
anything else. -/
def allowedKeys : List String := ["session_id", "agent_id", "command", "args", "reason"]

/-- A required `StrictStr` field: present and a string, never trimmed
or coerced. -/
def getStrField (raw : List (String × JValue)) (k : String) : Except String String :=
  match alookup raw k with
  | some (.str s) => .ok s
  | _ => .error ("field " ++ k ++ " must be a string and is required")

/-- Pydantic validation of the `Request` model: extra keys forbidden,
`session_id` an optional strict string, `agent_id`, `command` and
`reason` required strict strings, `args` an optional mapping defaulting
to empty. -/
def validateRequest (raw : List (String × JValue)) : Except String Request :=
  if raw.all (fun p => allowedKeys.contains p.1) then
    (match alookup raw "session_id" with
      | none => Except.ok none
      | some .null => Except.ok none
      | some (.str s) => Except.ok (some s)
      | some _ => Except.error "session_id must be a string") >>= fun session_id =>
    getStrField raw "agent_id" >>= fun agent_id =>
    getStrField raw "command" >>= fun command =>
    (match alookup raw "args" with
      | none => Except.ok ([] : List (String × JValue))
      | some (.obj fields) => Except.ok fields
      | some _ => Except.error "args must be a mapping") >>= fun args =>
    getStrField raw "reason" >>= fun reason =>
    Except.ok { session_id := session_id, agent_id := agent_id, command := command,
                args := args, reason := reason }
  else Except.error "extra fields are not permitted"

/-- In the validation-failure branch the dispatcher echoes
`raw_request.get("session_id")` into the error response; building
`Response` with a non-string, non-null value there raises a second,
uncaught validation error inside the handler. -/
def rawSessionId (raw : List (String × JValue)) : Except PyError (Option String) :=
  match alookup raw "session_id" with
  | none => .ok none
  | some .null => .ok none
  | some (.str s) => .ok (some s)
  | some _ => .error (.validationError "session_id is not a valid string")

/-! ## Dispatcher (runtime/dispatcher.py) -/

/-- `Dispatcher._response`: assemble the envelope. -/
def mkResponse (ok : Bool) (code message : String) (data : List (String × JValue))
    (turn_advanced : Bool) (turn_number : Int) (game_over : Bool)
    (winner session_id : Option String) : Response :=
  { ok := ok, code := code, message := message, data := data,
    turn_advanced := turn_advanced, turn_number := turn_number,
    game_over := game_over, winner := winner, session_id := session_id }

/-- `Dispatcher._handle_framework_command`: answer `ping`, `schema`,
`history`, `latest` and `view` from store data; only `view`'s missing
turn (`FileNotFoundError`) is downgraded to `INVALID_ARGS`. -/
def handle_framework_command (st : Store) (request : Request) (meta : Meta)
    (snapshot : Snapshot) : Except PyError Response :=
  let turn_number := snapshot.turn_number
  let state := snapshot.canonical_state
  let session_id := meta.session_id
  if request.command = "ping" then
    .ok (mkResponse true OK "pong" [("protocol_version", .str PROTOCOL_VERSION)]
      false turn_number state.game_over state.winner (some session_id))
  else if request.command = "schema" then
    .ok (mkResponse true OK "Schema information"
      [("protocol_version", .str PROTOCOL_VERSION),
       ("request_fields", .arr (allowedKeys.map JValue.str)),
       ("response_fields", .arr (["ok", "code", "message", "data", "turn_advanced",
          "turn_number", "game_over", "winner", "session_id"].map JValue.str)),
       ("standard_commands", .arr (STANDARD_COMMANDS.map JValue.str))]
      false turn_number state.game_over state.winner (some session_id))
  else if request.command = "history" then
    let turns := st.list_turns session_id
    .ok (mkResponse true OK "History retrieved" [("turns", .arr (turns.map JValue.int))]
      false turn_number state.game_over state.winner (some session_id))
  else if request.command = "latest" then
    .ok (mkResponse true OK "Latest snapshot retrieved" [("snapshot", snapshot.toJ)]
      false turn_number state.game_over state.winner (some session_id))
  else
    let requested_turn := (alookup request.args "turn_number").getD (.int turn_number)
    match st.read_turn_value session_id requested_turn with
    | .error (.fileNotFound _) =>
        .ok (mkResponse false INVALID_ARGS "Turn not found" []
          false turn_number state.game_over state.winner (some session_id))
    | .error e => .error e
    | .ok view_snapshot =>
        .ok (mkResponse true OK "Turn view retrieved" [("snapshot", view_snapshot.toJ)]
          false turn_number state.game_over state.winner (some session_id))

/-- The turn-advance decision and the tail of `dispatch` (source lines
402-467): on a successful action the new state becomes canonical, the
turn number increments, the opponent may move, one snapshot is written
and the outcome is logged; otherwise no turn is written. -/
def dispatchAdvance (st : Store) (request : Request) (sid : String) (snapshot : Snapshot)
    (plugin : Plugin) (state : GameState) (pre_hash : String)
    (result_data : List (String × JValue)) (new_state : GameState)
    (code message : String) (action_succeeded : Bool) : Except PyError (Response × Store) :=
  let is_action := plugin.is_action request.command
  let current_turn := snapshot.turn_number
  if is_action ∧ action_succeeded ∧ code = OK then do
    let fs0 := deepcopy new_state
    let events0 := [Event.action request.command request.reason request.args fs0.last_move]
    let final_turn_number := current_turn + 1
    let fs1 := { fs0 with turn_number := final_turn_number }
    let stepped ←
      if fs1.game_over then
        Except.ok (fs1, events0)
      else
        let fsO := { plugin.opponent_step fs1 with turn_number := final_turn_number }
        match fsO.last_move with
        | none =>
            -- final_state.get("last_move", \x7b\x7d).get("player") with a
            -- None last_move raises AttributeError
            Except.error (PyError.attributeError "NoneType object has no attribute get")
        | some m =>
            Except.ok (fsO,
              if m.player = "opponent" then events0 ++ [Event.opponent_step m] else events0)
    let final_state := stepped.1
    let events_for_turn := stepped.2
    let st1 ← st.write_turn_snapshot sid final_turn_number final_state
      (plugin.generate_agent_view final_state) (plugin.generate_human_view final_state)
      events_for_turn
    let response := mkResponse (decide (code = OK)) code message result_data true
      final_turn_number final_state.game_over final_state.winner (some sid)
    let st2 ← st1.append_log sid
      { request := request, response := response, pre_hash := some pre_hash,
        post_hash := state_hash final_state.toJ, turn_advanced := true,
        turn_number := final_turn_number }
    return (response, st2)
  else
    let final_state := if is_action then state else deepcopy new_state
    let response := mkResponse (decide (code = OK)) code message result_data false
      current_turn final_state.game_over final_state.winner (some sid)
    match st.append_log sid
      { request := request, response := response, pre_hash := some pre_hash,
        post_hash := state_hash state.toJ, turn_advanced := false,
        turn_number := current_turn } with
    | .error e => .error e
    | .ok st1 => .ok (response, st1)

/-- Routing once a session and its plugin are loaded: framework
commands, unknown commands, unsupported commands, then the guarded
`plugin.execute` call whose exceptions become `INTERNAL_ERROR`. -/
def dispatchCommand (st : Store) (request : Request) (sid : String) (meta : Meta)
    (snapshot : Snapshot) (plugin : Plugin) : Except PyError (Response × Store) :=
  let state := deepcopy snapshot.canonical_state
  let pre_hash := state_hash state.toJ
  if FRAMEWORK_COMMANDS.contains request.command then do
    let response ← handle_framework_command st request meta snapshot
    let st1 ← st.append_log sid
      { request := request, response := response, pre_hash := some pre_hash,
        post_hash := pre_hash, turn_advanced := false, turn_number := snapshot.turn_number }
    return (response, st1)
  else if ¬ STANDARD_COMMANDS.contains request.command then do
    let response := mkResponse false UNKNOWN_COMMAND "Unknown command" [] false
      snapshot.turn_number state.game_over state.winner (some sid)
    let st1 ← st.append_log sid
      { request := request, response := response, pre_hash := some pre_hash,
        post_hash := pre_hash, turn_advanced := false, turn_number := snapshot.turn_number }
    return (response, st1)
  else if ¬ (supportedCommands plugin.manifest).contains request.command then do
    let response := mkResponse false NOT_SUPPORTED "Command is not supported by the plugin"
      [] false snapshot.turn_number state.game_over state.winner (some sid)
    let st1 ← st.append_log sid
      { request := request, response := response, pre_hash := some pre_hash,
        post_hash := pre_hash, turn_advanced := false, turn_number := snapshot.turn_number }
    return (response, st1)
  else
    match plugin.execute request.command request.args (deepcopy state)
      { session_id := sid, agent_id := request.agent_id, reason := request.reason,
        turn_number := snapshot.turn_number } with
    | .error exc => do
        let response := mkResponse false INTERNAL_ERROR exc [] false
          snapshot.turn_number state.game_over state.winner (some sid)
        let st1 ← st.append_log sid
          { request := request, response := response, pre_hash := some pre_hash,
            post_hash := pre_hash, turn_advanced := false, turn_number := snapshot.turn_number }
        return (response, st1)
    | .ok (result_data, new_state, code, message, action_succeeded) =>
        dispatchAdvance st request sid snapshot plugin state pre_hash result_data new_state
          code message action_succeeded

/-- The `register` command: resolve the plugin (default identifier
`tictactoe`), create the session, write turn 0 with the initialization
event and log the outcome against the new session. Non-string
`plugin_id` values find no plugin. -/
def dispatchRegister (plugins : List (String × Plugin)) (st : Store) (request : Request) :
    Except PyError (Response × Store) :=
  let plugin_idJ := (alookup request.args "plugin_id").getD (.str "tictactoe")
  let found :=
    match plugin_idJ with
    | .str s => (alookup plugins s).map (fun p => (s, p))
    | _ => none
  match found with
  | none =>
      .ok (mkResponse false NOT_REGISTERED "Plugin is not registered" [] false 0
        false none none, st)
  | some (plugin_id, plugin) => do
      let options := (alookup request.args "options").getD (.obj [])
      let created ← st.create_session plugin_id request.agent_id PROTOCOL_VERSION options
      let session_id := created.1
      let st1 := created.2
      let initial_state := { plugin.init options with turn_number := 0 }
      let snapshot_events := [Event.register request.reason request.agent_id plugin_id]
      let st2 ← st1.write_turn_snapshot session_id 0 initial_state
        (plugin.generate_agent_view initial_state) (plugin.generate_human_view initial_state)
        snapshot_events
      let response := mkResponse true OK "Registered"
        [("plugin_id", .str plugin_id), ("protocol_version", .str PROTOCOL_VERSION)]
        false 0 initial_state.game_over initial_state.winner (some session_id)
      let st3 ← st2.append_log session_id
        { request := request, response := response, pre_hash := none,
          post_hash := state_hash initial_state.toJ, turn_advanced := false,
          turn_number := 0 }
      return (response, st3)

/-- Load the session and its plugin, then route the command; a missing
session (`FileNotFoundError` from the store reads) becomes
`NOT_REGISTERED`, and a session whose recorded plugin is not loadable
becomes `INTERNAL_ERROR` without logging. -/
def dispatchSession (plugins : List (String × Plugin)) (st : Store) (request : Request)
    (sid : String) : Except PyError (Response × Store) :=
  match load_session st sid with
  | .error (.fileNotFound _) =>
      .ok (mkResponse false NOT_REGISTERED "Session not found" [] false 0 false none
        (some sid), st)
  | .error e => .error e
  | .ok (meta, snapshot) =>
      match alookup plugins meta.plugin_id with
      | none =>
          .ok (mkResponse false INTERNAL_ERROR "Plugin could not be loaded" [] false
            snapshot.turn_number snapshot.canonical_state.game_over
            snapshot.canonical_state.winner (some sid), st)
      | some plugin => dispatchCommand st request sid meta snapshot plugin

/-- `Dispatcher.dispatch`: validate, check the session requirement,
then route to `register` or to the per-session pipeline. An `.error`
result models a Python exception escaping `dispatch`. A falsy
`session_id` (absent or the empty string) fails the session-required
check. -/
def dispatch (plugins : List (String × Plugin)) (st : Store)
    (raw_request : List (String × JValue)) : Except PyError (Response × Store) :=
  match validateRequest raw_request with
  | .error msg =>
      match rawSessionId raw_request with
      | .error e => .error e
      | .ok sid => .ok (mkResponse false INVALID_ARGS msg [] false 0 false none sid, st)
  | .ok request =>
      if request.command ≠ "register" ∧ request.session_id.getD "" = "" then
        .ok (mkResponse false NOT_REGISTERED "session_id is required for non-register commands"
          [] false 0 false none none, st)
      else if request.command = "register" then
        dispatchRegister plugins st request
      else
        match request.session_id with
        | some sid => dispatchSession plugins st request sid
        | none =>
            -- unreachable: a register command was routed above and any
            -- other command with a missing session_id was rejected
            .ok (mkResponse false NOT_REGISTERED
              "session_id is required for non-register commands" [] false 0 false none none, st)

/-! ## The bundled tic-tac-toe plugin (plugins/tictactoe/game.py) -/

namespace TicTacToe

abbrev Board := List (List String)

/-- `board[y][x]` for indices already checked to be in `range(3)`. -/
def cellNat (board : Board) (x y : Nat) : String :=
  (board.getD y []).getD x " "

/-- `board[y][x] = token` for in-range indices. -/
def setCell (board : Board) (x y : Nat) (token : String) : Board :=
  board.set y ((board.getD y []).set x token)

/-- `_lines`: the three rows, three columns and two diagonals, in that
order. -/
def lines (board : Board) : List (List String) :=
  board ++
  (List.range 3).map (fun c => (List.range 3).map (fun r => cellNat board c r)) ++
  [[cellNat board 0 0, cellNat board 1 1, cellNat board 2 2],
   [cellNat board 2 0, cellNat board 1 1, cellNat board 0 2]]

/-- The loop body of `_winner_for_board`: first fully-owned line wins. -/
def winnerScan (ls : List (List String)) (agent_token opponent_token : String) :
    Option String :=
  match ls with
  | [] => none
  | line :: rest =>
      if line.all (fun cell => cell == agent_token) then some "agent"
      else if line.all (fun cell => cell == opponent_token) then some "opponent"
      else winnerScan rest agent_token opponent_token

/-- `_winner_for_board`. -/
def winner_for_board (board : Board) (agent_token opponent_token : String) : Option String :=
  winnerScan (lines board) agent_token opponent_token

/-- `_board_full`. -/
def board_full (board : Board) : Bool :=
  board.all (fun row => row.all (fun cell => cell != " "))

/-- `_empty_cells`: `(x, y)` pairs, `y`-major as in the source. -/
def empty_cells (board : Board) : List (Int × Int) :=
  ((List.range 3).map (fun y =>
    (List.range 3).filterMap (fun x =>
      if cellNat board x y = " " then some ((x : Int), (y : Int)) else none))).flatten

/-- `_find_winning_move`: the first empty cell whose probe completes a
line for `token`. -/
def find_winning_move (board : Board) (token : String) : Option (Int × Int) :=
  (empty_cells board).find? (fun m =>
    let probe := setCell board m.1.toNat m.2.toNat token
    (lines probe).any (fun line => line.all (fun cell => cell == token)))

/-- `_choose_opponent_move`: win, block, centre, corners, edges. -/
def choose_opponent_move (board : Board) (agent_token opponent_token : String) :
    Option (Int × Int) :=
  match find_winning_move board opponent_token with
  | some m => some m
  | none =>
  match find_winning_move board agent_token with
  | some m => some m
  | none =>
  if cellNat board 1 1 = " " then some (1, 1)
  else match ([(0, 0), (2, 0), (0, 2), (2, 2)] : List (Int × Int)).find?
      (fun m => cellNat board m.1.toNat m.2.toNat == " ") with
  | some m => some m
  | none => ([(1, 0), (0, 1), (2, 1), (1, 2)] : List (Int × Int)).find?
      (fun m => cellNat board m.1.toNat m.2.toNat == " ")

/-- `_render_board`. -/
def render_board (board : Board) : String :=
  String.intercalate "\n" (board.map (fun row => String.intercalate " | " row))

/-- `Plugin.initialize`: the options are accepted and ignored. -/
def init (_options : JValue) : GameState :=
  { board := [[" ", " ", " "], [" ", " ", " "], [" ", " ", " "]],
    agent_token := "X", opponent_token := "O", next_player := "agent",
    turn_number := 0, game_over := false, winner := none, last_move := none }

/-- `Plugin.is_action`. -/
def is_action (command : String) : Bool := command == "move"

/-- The fields of `generate_agent_view(state)` (a dict). -/
def agent_view_fields (state : GameState) : List (String × JValue) :=
  [("board", boardJ state.board), ("next_player", .str state.next_player),
   ("game_over", .bool state.game_over), ("winner", optStrJ state.winner),
   ("last_move", optMoveJ state.last_move), ("turn_number", .int state.turn_number)]

/-- `Plugin.generate_agent_view`. -/
def generate_agent_view (state : GameState) : JValue :=
  .obj (agent_view_fields state)

/-- `Plugin.generate_human_view`. -/
def generate_human_view (state : GameState) : JValue :=
  .obj [("board", boardJ state.board), ("rendered_board", .str (render_board state.board)),
        ("next_player", .str state.next_player), ("game_over", .bool state.game_over),
        ("winner", optStrJ state.winner), ("last_move", optMoveJ state.last_move),
        ("turn_number", .int state.turn_number)]

/-- `args.get("x")` with `isinstance(x, int)`: Python ints and bools
count as ints. -/
def argInt (args : List (String × JValue)) (k : String) : Option Int :=
  match alookup args k with
  | some (.int n) => some n
  | some (.bool b) => some (if b then 1 else 0)
  | _ => none

/-- `board[y][x]` via checked `Int` indices. -/
def cellAt (board : Board) (x y : Int) : String :=
  cellNat board x.toNat y.toNat

/-- `Plugin.execute`: `rules` and `status`/`agent_view` are
informational, `move` validates and applies the agent's move, anything
else is `INVALID_ARGS`. Never raises. -/
def execute (command : String) (args : List (String × JValue)) (state : GameState)
    (request_meta : RequestMeta) :
    Except String (List (String × JValue) × GameState × String × String × Bool) :=
  if command = "rules" then
    .ok ([("rules", .str "Place three of your marks in a row. The agent plays X and moves first."),
          ("reason_echo", .str request_meta.reason)], state, OK, "Rules retrieved", false)
  else if command = "status" ∨ command = "agent_view" then
    .ok (agent_view_fields state, state, OK, "Status retrieved", false)
  else if command ≠ "move" then
    .ok ([], state, INVALID_ARGS, "Unexpected command", false)
  else if state.game_over then
    .ok ([], state, GAME_OVER, "Game is already over", false)
  else if state.next_player ≠ "agent" then
    .ok ([], state, INVALID_MOVE, "It is not the agent turn", false)
  else
    match argInt args "x", argInt args "y" with
    | some x, some y =>
        if ¬ (0 ≤ x ∧ x < 3 ∧ 0 ≤ y ∧ y < 3) then
          .ok ([], state, INVALID_MOVE, "Move is out of range", false)
        else if cellAt state.board x y ≠ " " then
          .ok ([], state, INVALID_MOVE, "Cell is already occupied", false)
        else
          let board1 := setCell state.board x.toNat y.toNat state.agent_token
          let move : Move := { player := "agent", token := state.agent_token, x := x, y := y }
          let ns0 := { (deepcopy state) with board := board1, last_move := some move }
          let ns :=
            match winner_for_board board1 state.agent_token state.opponent_token with
            | some w => { ns0 with game_over := true, winner := some w, next_player := "agent" }
            | none =>
                if board_full board1 then
                  { ns0 with game_over := true, winner := some "draw", next_player := "agent" }
                else { ns0 with next_player := "opponent" }
          .ok (agent_view_fields ns, ns, OK, "Move applied", true)
    | _, _ => .ok ([], state, INVALID_ARGS, "Move requires integer x and y", false)

/-- `Plugin.opponent_step`: a no-op unless the game is live and it is
the opponent's turn; otherwise play the chosen move (or declare a draw
when no move exists) and re-evaluate the board. -/
def opponent_step (state : GameState) : GameState :=
  if state.game_over ∨ state.next_player ≠ "opponent" then state
  else
    match choose_opponent_move state.board state.agent_token state.opponent_token with
    | none =>
        { (deepcopy state) with game_over := true, winner := some "draw", next_player := "agent" }
    | some (x, y) =>
        let board1 := setCell state.board x.toNat y.toNat state.opponent_token
        let mv : Move := { player := "opponent", token := state.opponent_token, x := x, y := y }
        let ns0 := { (deepcopy state) with board := board1, last_move := some mv }
        match winner_for_board board1 state.agent_token state.opponent_token with
        | some w => { ns0 with game_over := true, winner := some w, next_player := "agent" }
        | none =>
            if board_full board1 then
              { ns0 with game_over := true, winner := some "draw", next_player := "agent" }
            else { ns0 with next_player := "agent" }

/-- Modelled from the spec: the `plugin.json` manifest file is not
among the sources; §6 and the framework tests fix the supported
standard commands as `move` plus the informational commands. -/
def manifest : List (String × JValue) :=
  [("id", .str "tictactoe"),
   ("supported_commands",
    .arr [JValue.str "move", JValue.str "rules", JValue.str "status", JValue.str "agent_view"])]

/-- The plugin object. -/
def plugin : Plugin :=
  { manifest := manifest, init := init, is_action := is_action, execute := execute,
    opponent_step := opponent_step, generate_agent_view := generate_agent_view,
    generate_human_view := generate_human_view }

end TicTacToe

/-- The registry mapping as loaded for the bundled plugin. -/
def tictactoePlugins : List (String × Plugin) := [("tictactoe", TicTacToe.plugin)]


/-! ## Concrete scenario values (mirroring the framework tests) -/

/-- A register request for the bundled plugin. -/
def regRaw : List (String × JValue) :=
  [("agent_id", .str "agent-1"), ("command", .str "register"),
   ("args", .obj [("plugin_id", .str "tictactoe")]), ("reason", .str "start game")]

/-- The response of the register call on a fresh store. -/
def regResp : Response :=
  match dispatch tictactoePlugins emptyStore regRaw with
  | .ok (r, _) => r
  | .error _ => default

/-- The store after the register call. -/
def store1 : Store :=
  match dispatch tictactoePlugins emptyStore regRaw with
  | .ok (_, stx) => stx
  | .error _ => emptyStore

/-- A first move at the corner (0, 0). -/
def moveRaw : List (String × JValue) :=
  [("session_id", .str "session-0"), ("agent_id", .str "agent-1"), ("command", .str "move"),
   ("args", .obj [("x", .int 0), ("y", .int 0)]), ("reason", .str "take a corner")]

def moveReq : Request :=
  match validateRequest moveRaw with
  | .ok r => r
  | .error _ => default

def moveResp : Response :=
  match dispatch tictactoePlugins store1 moveRaw with
  | .ok (r, _) => r
  | .error _ => default

/-- The store after register and one successful move. -/
def store2 : Store :=
  match dispatch tictactoePlugins store1 moveRaw with
  | .ok (_, stx) => stx
  | .error _ => emptyStore

def meta0w : Meta :=
  match load_session store1 "session-0" with
  | .ok (m, _) => m
  | .error _ => default

def snap0w : Snapshot :=
  match load_session store1 "session-0" with
  | .ok (_, sn) => sn
  | .error _ => default

def sess1w : SessionData :=
  match store1.session? "session-0" with
  | some sd => sd
  | none => default

def exec1w : Except String (List (String × JValue) × GameState × String × String × Bool) :=
  TicTacToe.plugin.execute "move" [("x", .int 0), ("y", .int 0)] snap0w.canonical_state
    ⟨"session-0", "agent-1", "take a corner", snap0w.turn_number⟩

def execD1 : List (String × JValue) :=
  match exec1w with
  | .ok t => t.1
  | .error _ => []

def execNs1 : GameState :=
  match exec1w with
  | .ok t => t.2.1
  | .error _ => default

def execMsg1 : String :=
  match exec1w with
  | .ok t => t.2.2.2.1
  | .error _ => ""

/-- Re-issuing the same move at the occupied corner. -/
def move2Raw : List (String × JValue) :=
  [("session_id", .str "session-0"), ("agent_id", .str "agent-1"), ("command", .str "move"),
   ("args", .obj [("x", .int 0), ("y", .int 0)]), ("reason", .str "repeat invalid move")]

def move2Req : Request :=
  match validateRequest move2Raw with
  | .ok r => r
  | .error _ => default

def move2Resp : Response :=
  match dispatch tictactoePlugins store2 move2Raw with
  | .ok (r, _) => r
  | .error _ => default

def store3 : Store :=
  match dispatch tictactoePlugins store2 move2Raw with
  | .ok (_, stx) => stx
  | .error _ => emptyStore

def meta1w : Meta :=
  match load_session store2 "session-0" with
  | .ok (m, _) => m
  | .error _ => default

def snap1w : Snapshot :=
  match load_session store2 "session-0" with
  | .ok (_, sn) => sn
  | .error _ => default

def sess2w : SessionData :=
  match store2.session? "session-0" with
  | some sd => sd
  | none => default

def exec2w : Except String (List (String × JValue) × GameState × String × String × Bool) :=
  TicTacToe.plugin.execute "move" [("x", .int 0), ("y", .int 0)] snap1w.canonical_state
    ⟨"session-0", "agent-1", "repeat invalid move", snap1w.turn_number⟩

def exec2D : List (String × JValue) :=
  match exec2w with
  | .ok t => t.1
  | .error _ => []

def exec2Ns : GameState :=
  match exec2w with
  | .ok t => t.2.1
  | .error _ => default

def exec2Code : String :=
  match exec2w with
  | .ok t => t.2.2.1
  | .error _ => ""

def exec2Msg : String :=
  match exec2w with
  | .ok t => t.2.2.2.1
  | .error _ => ""

def exec2Succ : Bool :=
  match exec2w with
  | .ok t => t.2.2.2.2
  | .error _ => true

/-- A view request for a turn that does not exist. -/
def view7Raw : List (String × JValue) :=
  [("session_id", .str "session-0"), ("agent_id", .str "agent-1"), ("command", .str "view"),
   ("args", .obj [("turn_number", .int 7)]), ("reason", .str "read a missing turn")]

def view7Req : Request :=
  match validateRequest view7Raw with
  | .ok r => r
  | .error _ => default

/-- A view request whose turn number is a string: the file-name
formatting raises an uncaught ValueError. -/
def viewBadRaw : List (String × JValue) :=
  [("session_id", .str "session-0"), ("agent_id", .str "agent-1"), ("command", .str "view"),
   ("args", .obj [("turn_number", .str "zero")]), ("reason", .str "read turn zero")]

/-- A register request whose reason is the empty string. -/
def emptyReasonRaw : List (String × JValue) :=
  [("agent_id", .str "agent-1"), ("command", .str "register"),
   ("args", .obj [("plugin_id", .str "tictactoe")]), ("reason", .str "")]

/-- A request with an extra key and a non-string session_id: validation
fails and the error-response construction itself raises. -/
def extraKeyRaw : List (String × JValue) :=
  [("weird", .null), ("session_id", .int 3), ("agent_id", .str "agent-1"),
   ("command", .str "ping"), ("reason", .str "probe")]

/-- A register request that also carries a session_id naming the
existing session. -/
def reRegisterRaw : List (String × JValue) :=
  [("session_id", .str "session-0"), ("agent_id", .str "agent-2"),
   ("command", .str "register"), ("args", .obj [("plugin_id", .str "tictactoe")]),
   ("reason", .str "start a second game")]

def reRegisterReq : Request :=
  match validateRequest reRegisterRaw with
  | .ok r => r
  | .error _ => default


def reRegResp : Response :=
  match dispatch tictactoePlugins store1 reRegisterRaw with
  | .ok (r, _) => r
  | .error _ => default

def store1b : Store :=
  match dispatch tictactoePlugins store1 reRegisterRaw with
  | .ok (_, stx) => stx
  | .error _ => emptyStore

def view7Resp : Response :=
  match dispatch tictactoePlugins store1 view7Raw with
  | .ok (r, _) => r
  | .error _ => default

def store1v : Store :=
  match dispatch tictactoePlugins store1 view7Raw with
  | .ok (_, stx) => stx
  | .error _ => emptyStore

/-! ## Serialization lemmas -/

theorem canonFields_eq_map (fs : List (String × JValue)) :
    canonFields fs = fs.map (fun p => (p.1, canon p.2)) := by
  induction fs with
  | nil => rfl
  | cons p rest ih => cases p with | mk k v => simp [canonFields, ih]

theorem map_fst_canonFields (fs : List (String × JValue)) :
    (canonFields fs).map Prod.fst = fs.map Prod.fst := by
  rw [canonFields_eq_map, List.map_map]
  rfl

theorem sorted_keyLT_of_nodup {l : List (String × JValue)} (hs : l.Sorted keyLE)
    (hnd : (l.map Prod.fst).Nodup) : l.Sorted keyLT := by
  have hne : l.Pairwise (fun a b => a.1 ≠ b.1) := List.pairwise_map.mp hnd
  exact (hs.and hne).imp (fun h => lt_of_le_of_ne h.1 h.2)

theorem sortFields_eq_of_perm {l1 l2 : List (String × JValue)} (hperm : l1.Perm l2)
    (hnd : (l1.map Prod.fst).Nodup) : sortFields l1 = sortFields l2 := by
  have hp1 : (sortFields l1).Perm l1 := List.perm_insertionSort keyLE l1
  have hp2 : (sortFields l2).Perm l2 := List.perm_insertionSort keyLE l2
  have hp : (sortFields l1).Perm (sortFields l2) := (hp1.trans hperm).trans hp2.symm
  have hnd1 : ((sortFields l1).map Prod.fst).Nodup := ((hp1.map Prod.fst).nodup_iff).mpr hnd
  have hnd2 : ((sortFields l2).map Prod.fst).Nodup := ((hp.map Prod.fst).nodup_iff).mp hnd1
  have hs1 : (sortFields l1).Sorted keyLE := List.sorted_insertionSort keyLE l1
  have hs2 : (sortFields l2).Sorted keyLE := List.sorted_insertionSort keyLE l2
  exact List.eq_of_perm_of_sorted hp (sorted_keyLT_of_nodup hs1 hnd1)
    (sorted_keyLT_of_nodup hs2 hnd2)

theorem canon_obj_eq_of_perm {fs1 fs2 : List (String × JValue)}
    (hperm : fs1.Perm fs2) (hnd : (fs1.map Prod.fst).Nodup) :
    canon (.obj fs1) = canon (.obj fs2) := by
  have hpc : (canonFields fs1).Perm (canonFields fs2) := by
    rw [canonFields_eq_map, canonFields_eq_map]
    exact hperm.map _
  have hndc : ((canonFields fs1).map Prod.fst).Nodup := by
    rw [map_fst_canonFields]
    exact hnd
  show JValue.obj (sortFields (canonFields fs1)) = JValue.obj (sortFields (canonFields fs2))
  rw [sortFields_eq_of_perm hpc hndc]

/-! ## Store lemmas -/

theorem alookup_map_update {α : Type} (l : List (String × α)) (sid : String)
    (f : α → α) (k : String) :
    alookup (l.map (fun p => if p.1 = sid then (p.1, f p.2) else p)) k
      = if k = sid then (alookup l k).map f else alookup l k := by
  induction l with
  | nil => by_cases hk : k = sid <;> simp [alookup, hk]
  | cons p rest ih =>
      by_cases hp : p.1 = sid
      · by_cases hk : p.1 = k
        · have hks : k = sid := by rw [← hk]; exact hp
          simp [alookup, hp, hk, hks]
        · have hks : ¬ k = sid := fun he => hk (by rw [hp, he])
          have hsk : ¬ sid = k := fun he => hks he.symm
          simp [alookup, hp, hk, hks, hsk, ih]
      · by_cases hk : p.1 = k
        · have hks : ¬ k = sid := by rw [← hk]; exact hp
          simp [alookup, hp, hk, hks]
        · simp [alookup, hp, hk, ih]

theorem alookup_append {α : Type} (l1 l2 : List (String × α)) (k : String) :
    alookup (l1 ++ l2) k
      = match alookup l1 k with | some v => some v | none => alookup l2 k := by
  induction l1 with
  | nil => simp [alookup]
  | cons p rest ih => by_cases hk : p.1 = k <;> simp [alookup, hk, ih]

theorem session?_update (st : Store) (sid : String) (f : SessionData → SessionData)
    (k : String) :
    (st.update_session sid f).session? k
      = if k = sid then (st.session? k).map f else st.session? k :=
  alookup_map_update st.sessions sid f k

/-- The turns of every session, read through `session?`. -/
def turnsOf (st : Store) (k : String) : Option (List (Int × Snapshot)) :=
  (st.session? k).map SessionData.turns

/-- The metadata of every session, read through `session?`. -/
def metaOf (st : Store) (k : String) : Option Meta :=
  (st.session? k).map SessionData.meta

theorem append_log_ok {st : Store} {sid : String} {s : SessionData}
    (hs : st.session? sid = some s) (entry : LogEntry) :
    st.append_log sid entry
      = .ok (st.update_session sid (fun x => { x with log := x.log ++ [entry] })) := by
  unfold Store.append_log
  rw [hs]

theorem append_log_turnsOf {st st' : Store} {sid : String} {entry : LogEntry}
    (h : st.append_log sid entry = .ok st') (k : String) : turnsOf st' k = turnsOf st k := by
  unfold Store.append_log at h
  cases hs : st.session? sid with
  | none => rw [hs] at h; exact absurd h (by simp)
  | some s =>
      rw [hs] at h
      cases h
      unfold turnsOf
      rw [session?_update]
      by_cases hk : k = sid
      · subst hk; rw [hs]; simp
      · rw [if_neg hk]

theorem append_log_metaOf {st st' : Store} {sid : String} {entry : LogEntry}
    (h : st.append_log sid entry = .ok st') (k : String) : metaOf st' k = metaOf st k := by
  unfold Store.append_log at h
  cases hs : st.session? sid with
  | none => rw [hs] at h; exact absurd h (by simp)
  | some s =>
      rw [hs] at h
      cases h
      unfold metaOf
      rw [session?_update]
      by_cases hk : k = sid
      · subst hk; rw [hs]; simp
      · rw [if_neg hk]

theorem write_turn_snapshot_ok {st : Store} {sid : String} {s : SessionData}
    (hs : st.session? sid = some s) (tn : Int) (cs : GameState) (av hv : JValue)
    (evs : List Event) :
    st.write_turn_snapshot sid tn cs av hv evs
      = .ok (st.update_session sid (fun x =>
          { x with turns := writeTurnFile x.turns tn (⟨tn, cs, av, hv, evs⟩ : Snapshot) })) := by
  unfold Store.write_turn_snapshot
  rw [hs]

theorem writeTurnFile_append (turns : List (Int × Snapshot)) (tn : Int) (snap : Snapshot)
    (h : ∀ p ∈ turns, p.1 ≠ tn) : writeTurnFile turns tn snap = turns ++ [(tn, snap)] := by
  unfold writeTurnFile
  rw [if_neg]
  simp only [List.any_eq_true, decide_eq_true_eq, not_exists]
  intro p
  rw [not_and]
  exact h p

/-! ## Turn contiguity -/

/-- The integers `0, 1, ..., n-1`: the contiguous turn range. -/
def intRange (n : Nat) : List Int := (List.range n).map Int.ofNat

/-- Well-formed session directory: the turn files are `0..len-1` in
write order, there is at least one (turn 0), and each file's recorded
`turn_number` equals its file number. -/
def SessionData.wf (s : SessionData) : Prop :=
  s.turns.map Prod.fst = intRange s.turns.length
  ∧ 0 < s.turns.length
  ∧ ∀ p ∈ s.turns, p.2.turn_number = p.1

/-- Every session on disk is well-formed. -/
def Store.Good (st : Store) : Prop :=
  ∀ sid s, st.session? sid = some s → s.wf

theorem intRange_sorted (n : Nat) :
    (intRange n).Sorted (fun a b : Int => a ≤ b) := by
  unfold intRange
  refine List.pairwise_map.mpr ?_
  exact (List.pairwise_lt_range n).imp (fun h => Int.ofNat_le.mpr (le_of_lt h))

theorem intRange_getLast? (n : Nat) (h : 0 < n) :
    (intRange n).getLast? = some (Int.ofNat (n - 1)) := by
  obtain ⟨m, rfl⟩ := Nat.exists_eq_add_of_lt h
  unfold intRange
  rw [Nat.zero_add, List.range_succ, List.map_append]
  simp

theorem wf_list_turns {st : Store} {sid : String} {s : SessionData}
    (hs : st.session? sid = some s) (hwf : s.wf) :
    st.list_turns sid = intRange s.turns.length := by
  unfold Store.list_turns
  rw [hs]
  show (s.turns.map Prod.fst).insertionSort (fun a b => a ≤ b) = intRange s.turns.length
  rw [hwf.1]
  exact List.Sorted.insertionSort_eq (intRange_sorted s.turns.length)

theorem wf_latest_turn {st : Store} {sid : String} {s : SessionData}
    (hs : st.session? sid = some s) (hwf : s.wf) :
    st.latest_turn sid = .ok (Int.ofNat (s.turns.length - 1)) := by
  unfold Store.latest_turn
  rw [wf_list_turns hs hwf, intRange_getLast? s.turns.length hwf.2.1]

theorem wf_keys_lt {s : SessionData} (hwf : s.wf) :
    ∀ p ∈ s.turns, p.1 < Int.ofNat s.turns.length := by
  intro p hp
  have h1 : p.1 ∈ s.turns.map Prod.fst := List.mem_map_of_mem Prod.fst hp
  rw [hwf.1] at h1
  unfold intRange at h1
  obtain ⟨k, hk, hke⟩ := List.mem_map.mp h1
  rw [← hke]
  exact Int.ofNat_lt.mpr (List.mem_range.mp hk)

theorem alookup_mem {κ α : Type} [DecidableEq κ] {l : List (κ × α)} {k : κ} {v : α}
    (h : alookup l k = some v) : (k, v) ∈ l := by
  induction l with
  | nil => exact absurd h (by simp [alookup])
  | cons p rest ih =>
      by_cases hk : p.1 = k
      · rw [alookup, if_pos hk] at h
        cases h
        rw [← hk, Prod.mk.eta]
        exact List.mem_cons_self p rest
      · rw [alookup, if_neg hk] at h
        exact List.mem_cons_of_mem p (ih h)

/-- The audit log of every session, read through `session?`. -/
def logOf (st : Store) (k : String) : Option (List LogEntry) :=
  (st.session? k).map SessionData.log

theorem intRange_succ (n : Nat) : intRange (n + 1) = intRange n ++ [Int.ofNat n] := by
  unfold intRange
  rw [List.range_succ, List.map_append]
  rfl

theorem exbind_ok {ε α β : Type} (a : α) (f : α → Except ε β) :
    (Except.ok a : Except ε α) >>= f = f a := rfl

theorem exbind_err {ε α β : Type} (e : ε) (f : α → Except ε β) :
    (Except.error e : Except ε α) >>= f = Except.error e := rfl

theorem expure {ε α : Type} (a : α) : (pure a : Except ε α) = Except.ok a := rfl

theorem load_session_ok {st : Store} {sid : String} {meta : Meta} {snap : Snapshot}
    (h : load_session st sid = .ok (meta, snap)) :
    ∃ s tn, st.session? sid = some s ∧ meta = s.meta ∧ st.latest_turn sid = .ok tn ∧
      alookup s.turns tn = some snap := by
  unfold load_session at h
  cases hm : st.read_meta sid with
  | error e => rw [hm] at h; simp [exbind_err] at h
  | ok m =>
      rw [hm] at h
      simp only [exbind_ok] at h
      cases hl : st.latest_turn sid with
      | error e => rw [hl] at h; simp [exbind_err] at h
      | ok tn =>
          rw [hl] at h
          simp only [exbind_ok] at h
          cases hr : st.read_turn sid tn with
          | error e => rw [hr] at h; simp [exbind_err] at h
          | ok sn =>
              rw [hr] at h
              simp only [exbind_ok, expure, Except.ok.injEq, Prod.mk.injEq] at h
              obtain ⟨h1, h2⟩ := h
              subst h1
              subst h2
              unfold Store.read_meta at hm
              unfold Store.read_turn at hr
              cases hs : st.session? sid with
              | none => rw [hs] at hm; exact absurd hm (by simp)
              | some s =>
                  rw [hs] at hm hr
                  dsimp only at hm hr
                  cases hm
                  cases ha : alookup s.turns tn with
                  | none => rw [ha] at hr; exact absurd hr (by simp)
                  | some v =>
                      rw [ha] at hr
                      cases hr
                      exact ⟨s, tn, rfl, rfl, rfl, ha⟩

theorem load_session_wf {st : Store} {sid : String} {meta : Meta} {snap : Snapshot}
    (hGood : st.Good) (h : load_session st sid = .ok (meta, snap)) :
    ∃ s, st.session? sid = some s ∧ s.wf ∧ meta = s.meta ∧
      snap.turn_number = Int.ofNat (s.turns.length - 1) ∧
      alookup s.turns snap.turn_number = some snap ∧
      st.latest_turn sid = .ok snap.turn_number := by
  obtain ⟨s, tn, hs, hmeta, hl, ha⟩ := load_session_ok h
  have hwf : s.wf := hGood sid s hs
  have htn : tn = Int.ofNat (s.turns.length - 1) := by
    have hlat := wf_latest_turn hs hwf
    rw [hl] at hlat
    exact Except.ok.inj hlat
  have hfield : snap.turn_number = tn := hwf.2.2 (tn, snap) (alookup_mem ha)
  refine ⟨s, hs, hwf, hmeta, ?_, ?_, ?_⟩
  · rw [hfield, htn]
  · rw [hfield]; exact ha
  · rw [hfield]; exact hl

theorem append_log_branch_ok {st st' : Store} {sid : String} {entry : LogEntry}
    {resp r : Response}
    (h : (match st.append_log sid entry with
          | .error e => Except.error e
          | .ok st1 => Except.ok (r, st1)) = Except.ok (resp, st')) :
    resp = r ∧ st.append_log sid entry = .ok st' := by
  cases ha : st.append_log sid entry with
  | error e => rw [ha] at h; simp at h
  | ok st1 =>
      rw [ha] at h
      simp only [Except.ok.injEq, Prod.mk.injEq] at h
      exact ⟨h.1.symm, congrArg Except.ok h.2⟩

theorem turnsOf_update_turns_self {st : Store} {sid : String} {s : SessionData}
    (hsess : st.session? sid = some s) (f : List (Int × Snapshot) → List (Int × Snapshot)) :
    turnsOf (st.update_session sid (fun x => { x with turns := f x.turns })) sid
      = some (f s.turns) := by
  unfold turnsOf
  rw [session?_update, if_pos rfl, hsess]
  rfl

theorem turnsOf_update_turns_other (st : Store) (sid : String)
    (f : List (Int × Snapshot) → List (Int × Snapshot)) (k : String) (hk : k ≠ sid) :
    turnsOf (st.update_session sid (fun x => { x with turns := f x.turns })) k
      = turnsOf st k := by
  unfold turnsOf
  rw [session?_update, if_neg hk]

theorem metaOf_update_turns (st : Store) (sid : String)
    (f : List (Int × Snapshot) → List (Int × Snapshot)) (k : String) :
    metaOf (st.update_session sid (fun x => { x with turns := f x.turns })) k
      = metaOf st k := by
  unfold metaOf
  rw [session?_update]
  by_cases hk : k = sid
  · subst hk
    cases hs : st.session? k <;> simp [hs]
  · rw [if_neg hk]

theorem write_then_log_ok {st : Store} {sid : String} {s : SessionData}
    (hsess : st.session? sid = some s) {tn : Int} {final : GameState} {av hv : JValue}
    {evs : List Event} {r : Response} {entry : LogEntry} {resp : Response} {st' : Store}
    (h : (st.write_turn_snapshot sid tn final av hv evs >>= fun st1 =>
          st1.append_log sid entry >>= fun st2 => pure (r, st2)) = Except.ok (resp, st')) :
    resp = r ∧
    turnsOf st' sid = some (writeTurnFile s.turns tn (⟨tn, final, av, hv, evs⟩ : Snapshot)) ∧
    (∀ k, k ≠ sid → turnsOf st' k = turnsOf st k) ∧
    (∀ k, metaOf st' k = metaOf st k) := by
  rw [write_turn_snapshot_ok hsess] at h
  simp only [exbind_ok] at h
  have hs1 : (st.update_session sid (fun x =>
      { x with turns := writeTurnFile x.turns tn (⟨tn, final, av, hv, evs⟩ : Snapshot) })).session? sid
      = some { s with turns := writeTurnFile s.turns tn (⟨tn, final, av, hv, evs⟩ : Snapshot) } := by
    rw [session?_update, if_pos rfl, hsess]
    rfl
  rw [append_log_ok hs1] at h
  simp only [exbind_ok, expure, Except.ok.injEq, Prod.mk.injEq] at h
  obtain ⟨hr, hst⟩ := h
  have hlog := append_log_ok hs1 entry
  refine ⟨hr.symm, ?_, ?_, ?_⟩
  · rw [← hst]
    have h2 := append_log_turnsOf hlog sid
    rw [h2]
    exact turnsOf_update_turns_self hsess
      (fun t => writeTurnFile t tn (⟨tn, final, av, hv, evs⟩ : Snapshot))
  · intro k hk
    rw [← hst]
    have h2 := append_log_turnsOf hlog k
    rw [h2]
    exact turnsOf_update_turns_other st sid
      (fun t => writeTurnFile t tn (⟨tn, final, av, hv, evs⟩ : Snapshot)) k hk
  · intro k
    rw [← hst]
    have h2 := append_log_metaOf hlog k
    rw [h2]
    exact metaOf_update_turns st sid
      (fun t => writeTurnFile t tn (⟨tn, final, av, hv, evs⟩ : Snapshot)) k

theorem dispatchAdvance_ok_cases {st : Store} {req : Request} {sid : String}
    {snap : Snapshot} {plugin : Plugin} {state : GameState} {pre : String}
    {d : List (String × JValue)} {ns : GameState} {code msg : String} {succ : Bool}
    {s : SessionData} {resp : Response} {st' : Store}
    (hsess : st.session? sid = some s)
    (h : dispatchAdvance st req sid snap plugin state pre d ns code msg succ
         = .ok (resp, st')) :
    (¬ (plugin.is_action req.command = true ∧ succ = true ∧ code = OK) ∧
      resp = mkResponse (decide (code = OK)) code msg d false snap.turn_number
        (if plugin.is_action req.command = true then state else ns).game_over
        (if plugin.is_action req.command = true then state else ns).winner (some sid) ∧
      (∀ k, turnsOf st' k = turnsOf st k) ∧ (∀ k, metaOf st' k = metaOf st k)) ∨
    (plugin.is_action req.command = true ∧ succ = true ∧ code = OK ∧
      ∃ (final : GameState) (evs : List Event),
        (evs = [Event.action req.command req.reason req.args ns.last_move] ∨
         ∃ m : Move, evs = [Event.action req.command req.reason req.args ns.last_move,
                            Event.opponent_step m]) ∧
        resp = mkResponse true OK msg d true (snap.turn_number + 1) final.game_over
          final.winner (some sid) ∧
        turnsOf st' sid = some (writeTurnFile s.turns (snap.turn_number + 1)
          (⟨snap.turn_number + 1, final, plugin.generate_agent_view final,
            plugin.generate_human_view final, evs⟩ : Snapshot)) ∧
        (∀ k, k ≠ sid → turnsOf st' k = turnsOf st k) ∧
        (∀ k, metaOf st' k = metaOf st k)) := by
  unfold dispatchAdvance at h
  by_cases hc : plugin.is_action req.command = true ∧ succ = true ∧ code = OK
  · right
    obtain ⟨hact, hsucc, hcode⟩ := hc
    subst hcode
    subst hsucc
    refine ⟨hact, rfl, rfl, ?_⟩
    rw [if_pos ⟨hact, rfl, rfl⟩] at h
    simp only [deepcopy] at h
    by_cases hgo : ns.game_over = true
    · rw [if_pos hgo] at h
      simp only [exbind_ok] at h
      obtain ⟨hr, ht, hto, hm⟩ := write_then_log_ok hsess h
      exact ⟨{ ns with turn_number := snap.turn_number + 1 }, _, Or.inl rfl, hr, ht, hto, hm⟩
    · rw [if_neg hgo] at h
      cases hlm : (plugin.opponent_step
          { ns with turn_number := snap.turn_number + 1 }).last_move with
      | none =>
          rw [hlm] at h
          simp [exbind_err] at h
      | some m =>
          rw [hlm] at h
          simp only [exbind_ok] at h
          by_cases hpl : m.player = "opponent"
          · rw [if_pos hpl] at h
            simp only [List.cons_append, List.nil_append] at h
            obtain ⟨hr, ht, hto, hm2⟩ := write_then_log_ok hsess h
            exact ⟨{ plugin.opponent_step { ns with turn_number := snap.turn_number + 1 } with turn_number := snap.turn_number + 1, last_move := some m }, _, Or.inr ⟨m, rfl⟩, hr, ht, hto, hm2⟩
          · rw [if_neg hpl] at h
            obtain ⟨hr, ht, hto, hm2⟩ := write_then_log_ok hsess h
            exact ⟨{ plugin.opponent_step { ns with turn_number := snap.turn_number + 1 } with turn_number := snap.turn_number + 1, last_move := some m }, _, Or.inl rfl, hr, ht, hto, hm2⟩
  · left
    rw [if_neg hc] at h
    simp only [deepcopy] at h
    obtain ⟨hr, hlog⟩ := append_log_branch_ok h
    exact ⟨hc, hr, append_log_turnsOf hlog, append_log_metaOf hlog⟩

theorem handle_framework_not_advanced {st : Store} {req : Request} {meta : Meta}
    {snap : Snapshot} {resp : Response}
    (h : handle_framework_command st req meta snap = .ok resp) :
    resp.turn_advanced = false := by
  unfold handle_framework_command at h
  split_ifs at h
  · cases h; rfl
  · cases h; rfl
  · cases h; rfl
  · cases h; rfl
  · dsimp only at h
    split at h
    · cases h; rfl
    · exact absurd h (by simp)
    · cases h; rfl

theorem dispatchCommand_ok_cases {st : Store} {req : Request} {sid : String} {meta : Meta}
    {snap : Snapshot} {plugin : Plugin} {s : SessionData} {resp : Response} {st' : Store}
    (hsess : st.session? sid = some s)
    (h : dispatchCommand st req sid meta snap plugin = .ok (resp, st')) :
    (resp.turn_advanced = false ∧ (∀ k, turnsOf st' k = turnsOf st k) ∧
     (∀ k, metaOf st' k = metaOf st k)) ∨
    (resp.turn_advanced = true ∧ resp.ok = true ∧ resp.code = OK ∧
     resp.turn_number = snap.turn_number + 1 ∧ resp.session_id = some sid ∧
     ∃ (final : GameState) (evs : List Event),
       turnsOf st' sid = some (writeTurnFile s.turns (snap.turn_number + 1)
         (⟨snap.turn_number + 1, final, plugin.generate_agent_view final,
           plugin.generate_human_view final, evs⟩ : Snapshot)) ∧
       (∀ k, k ≠ sid → turnsOf st' k = turnsOf st k) ∧
       (∀ k, metaOf st' k = metaOf st k)) := by
  unfold dispatchCommand at h
  simp only [deepcopy] at h
  split_ifs at h
  · -- framework command
    cases hf : handle_framework_command st req meta snap with
    | error e => rw [hf] at h; simp [exbind_err] at h
    | ok r =>
        rw [hf] at h
        simp only [exbind_ok] at h
        rw [append_log_ok hsess] at h
        simp only [exbind_ok, expure, Except.ok.injEq, Prod.mk.injEq] at h
        obtain ⟨hr, hst⟩ := h
        subst hr
        have hlog := append_log_ok hsess
          { request := req, response := r,
            pre_hash := some (state_hash snap.canonical_state.toJ),
            post_hash := state_hash snap.canonical_state.toJ, turn_advanced := false,
            turn_number := snap.turn_number }
        rw [hst] at hlog
        exact Or.inl ⟨handle_framework_not_advanced hf,
          append_log_turnsOf hlog, append_log_metaOf hlog⟩
  · -- plugin execute
    cases hex : plugin.execute req.command req.args snap.canonical_state
        { session_id := sid, agent_id := req.agent_id, reason := req.reason,
          turn_number := snap.turn_number } with
    | error exc =>
        rw [hex] at h
        dsimp only at h
        rw [append_log_ok hsess] at h
        simp only [exbind_ok, expure, Except.ok.injEq, Prod.mk.injEq] at h
        obtain ⟨hr, hst⟩ := h
        subst hr
        have hlog := append_log_ok hsess
          { request := req,
            response := mkResponse false INTERNAL_ERROR exc [] false snap.turn_number
              snap.canonical_state.game_over snap.canonical_state.winner (some sid),
            pre_hash := some (state_hash snap.canonical_state.toJ),
            post_hash := state_hash snap.canonical_state.toJ, turn_advanced := false,
            turn_number := snap.turn_number }
        rw [hst] at hlog
        exact Or.inl ⟨rfl, append_log_turnsOf hlog, append_log_metaOf hlog⟩
    | ok val =>
        rw [hex] at h
        obtain ⟨d, ns, code, msg, succ⟩ := val
        dsimp only at h
        cases dispatchAdvance_ok_cases hsess h with
        | inl hL =>
            obtain ⟨_, hr, hturns, hmeta⟩ := hL
            subst hr
            exact Or.inl ⟨rfl, hturns, hmeta⟩
        | inr hR =>
            obtain ⟨hact, hsucc, hcode, final, evs, _, hr, ht, hto, hmo⟩ := hR
            subst hr
            exact Or.inr ⟨rfl, rfl, rfl, rfl, rfl, final, evs, ht, hto, hmo⟩
  · -- not supported
    rw [append_log_ok hsess] at h
    simp only [exbind_ok, expure, Except.ok.injEq, Prod.mk.injEq] at h
    obtain ⟨hr, hst⟩ := h
    subst hr
    have hlog := append_log_ok hsess
      { request := req,
        response := mkResponse false NOT_SUPPORTED "Command is not supported by the plugin"
          [] false snap.turn_number snap.canonical_state.game_over
          snap.canonical_state.winner (some sid),
        pre_hash := some (state_hash snap.canonical_state.toJ),
        post_hash := state_hash snap.canonical_state.toJ, turn_advanced := false,
        turn_number := snap.turn_number }
    rw [hst] at hlog
    exact Or.inl ⟨rfl, append_log_turnsOf hlog, append_log_metaOf hlog⟩
  · -- unknown command
    rw [append_log_ok hsess] at h
    simp only [exbind_ok, expure, Except.ok.injEq, Prod.mk.injEq] at h
    obtain ⟨hr, hst⟩ := h
    subst hr
    have hlog := append_log_ok hsess
      { request := req,
        response := mkResponse false UNKNOWN_COMMAND "Unknown command" [] false
          snap.turn_number snap.canonical_state.game_over snap.canonical_state.winner
          (some sid),
        pre_hash := some (state_hash snap.canonical_state.toJ),
        post_hash := state_hash snap.canonical_state.toJ, turn_advanced := false,
        turn_number := snap.turn_number }
    rw [hst] at hlog
    exact Or.inl ⟨rfl, append_log_turnsOf hlog, append_log_metaOf hlog⟩

theorem create_session_ok {st : Store}
    (hcol : st.session? (freshSessionId st.next_fresh) = none)
    (plugin_id agent_id protocol_version : String) (options : JValue) :
    st.create_session plugin_id agent_id protocol_version options
      = .ok (freshSessionId st.next_fresh,
        { sessions := st.sessions ++ [(freshSessionId st.next_fresh,
            { meta := { session_id := freshSessionId st.next_fresh, plugin_id := plugin_id,
                        agent_id := agent_id, protocol_version := protocol_version,
                        options := options },
              turns := [], log := [] })],
          next_fresh := st.next_fresh + 1 }) := by
  unfold Store.create_session
  dsimp only
  rw [hcol]

theorem dispatchRegister_ok_cases {plugins : List (String × Plugin)} {st : Store}
    {req : Request} {resp : Response} {st' : Store}
    (h : dispatchRegister plugins st req = .ok (resp, st')) :
    (resp.ok = false ∧ resp.turn_advanced = false ∧ resp.session_id = none ∧ st' = st) ∨
    (∃ (plugin_id : String) (plugin : Plugin) (initial : GameState),
      alookup plugins plugin_id = some plugin ∧
      resp.turn_advanced = false ∧ resp.ok = true ∧ resp.code = OK ∧
      resp.turn_number = 0 ∧
      resp.session_id = some (freshSessionId st.next_fresh) ∧
      st.session? (freshSessionId st.next_fresh) = none ∧
      turnsOf st' (freshSessionId st.next_fresh)
        = some [(0, (⟨0, initial, plugin.generate_agent_view initial,
                     plugin.generate_human_view initial,
                     [Event.register req.reason req.agent_id plugin_id]⟩ : Snapshot))] ∧
      (∀ k, k ≠ freshSessionId st.next_fresh → turnsOf st' k = turnsOf st k) ∧
      (∀ k, k ≠ freshSessionId st.next_fresh → metaOf st' k = metaOf st k) ∧
      (∀ k, k ≠ freshSessionId st.next_fresh → logOf st' k = logOf st k)) := by
  unfold dispatchRegister at h
  dsimp only at h
  split at h
  · simp only [Except.ok.injEq, Prod.mk.injEq] at h
    obtain ⟨hr, hst⟩ := h
    subst hr
    exact Or.inl ⟨rfl, rfl, rfl, hst.symm⟩
  · rename_i plugin_id plugin heq
    have hplug : alookup plugins plugin_id = some plugin := by
      split at heq
      · rename_i s2
        simp only [Option.map_eq_some'] at heq
        obtain ⟨p2, hp2, hpe⟩ := heq
        injection hpe with he1 he2
        subst he1
        subst he2
        exact hp2
      · exact absurd heq (by simp)
    cases hcol : st.session? (freshSessionId st.next_fresh) with
    | some old =>
        rw [show st.create_session plugin_id req.agent_id PROTOCOL_VERSION
              ((alookup req.args "options").getD (.obj [])) =
            .error (.fileExists (freshSessionId st.next_fresh)) from by
          unfold Store.create_session
          dsimp only
          rw [hcol]] at h
        simp [exbind_err] at h
    | none =>
        rw [create_session_ok hcol] at h
        simp only [exbind_ok] at h
        set opts : JValue := (alookup req.args "options").getD (JValue.obj []) with hopts
        set sd0 : SessionData :=
          { meta := { session_id := freshSessionId st.next_fresh, plugin_id := plugin_id,
                      agent_id := req.agent_id, protocol_version := PROTOCOL_VERSION,
                      options := opts }, turns := [], log := [] } with hsd0
        set st1 : Store :=
          { sessions := st.sessions ++ [(freshSessionId st.next_fresh, sd0)],
            next_fresh := st.next_fresh + 1 } with hst1
        set gs0 : GameState := { plugin.init opts with turn_number := 0 } with hgs0
        have hs1 : st1.session? (freshSessionId st.next_fresh) = some sd0 := by
          rw [hst1]
          show alookup (st.sessions ++ [(freshSessionId st.next_fresh, sd0)])
            (freshSessionId st.next_fresh) = some sd0
          rw [alookup_append]
          rw [show alookup st.sessions (freshSessionId st.next_fresh) = none from hcol]
          simp [alookup]
        rw [write_turn_snapshot_ok hs1] at h
        simp only [exbind_ok] at h
        set snap0 : Snapshot := ⟨0, gs0, plugin.generate_agent_view gs0, plugin.generate_human_view gs0, [Event.register req.reason req.agent_id plugin_id]⟩ with hsnap0
        have hs2 : (st1.update_session (freshSessionId st.next_fresh) (fun x =>
            { x with turns := writeTurnFile x.turns 0 snap0 })).session?
            (freshSessionId st.next_fresh)
            = some { sd0 with turns := writeTurnFile sd0.turns 0 snap0 } := by
          rw [session?_update, if_pos rfl, hs1]
          rfl
        rw [append_log_ok hs2] at h
        simp only [exbind_ok, expure, Except.ok.injEq, Prod.mk.injEq] at h
        obtain ⟨hr, hst⟩ := h
        subst hr
        have hskk : ∀ k, k ≠ freshSessionId st.next_fresh →
            st1.session? k = st.session? k := by
          intro k hk
          have hne : ¬ freshSessionId st.next_fresh = k := fun he => hk he.symm
          rw [hst1]
          show alookup (st.sessions ++ [(freshSessionId st.next_fresh, sd0)]) k
            = st.session? k
          rw [alookup_append]
          unfold Store.session?
          cases hsk : alookup st.sessions k with
          | some v => rfl
          | none => simp [alookup, hne]
        refine Or.inr ⟨plugin_id, plugin, gs0, hplug, rfl, rfl, rfl, rfl, rfl, rfl,
          ?_, ?_, ?_, ?_⟩
        · rw [← hst]
          unfold turnsOf
          rw [session?_update, if_pos rfl, hs2]
          rfl
        · intro k hk
          rw [← hst]
          unfold turnsOf
          rw [session?_update, if_neg hk, session?_update, if_neg hk, hskk k hk]
        · intro k hk
          rw [← hst]
          unfold metaOf
          rw [session?_update, if_neg hk, session?_update, if_neg hk, hskk k hk]
        · intro k hk
          rw [← hst]
          unfold logOf
          rw [session?_update, if_neg hk, session?_update, if_neg hk, hskk k hk]

theorem dispatchSession_ok_cases {plugins : List (String × Plugin)} {st : Store}
    {req : Request} {sid : String} {resp : Response} {st' : Store}
    (h : dispatchSession plugins st req sid = .ok (resp, st')) :
    (resp.turn_advanced = false ∧ st' = st) ∨
    (∃ (meta : Meta) (snap : Snapshot) (plugin : Plugin) (s : SessionData),
      load_session st sid = .ok (meta, snap) ∧ st.session? sid = some s ∧
      alookup plugins meta.plugin_id = some plugin ∧
      ((resp.turn_advanced = false ∧ (∀ k, turnsOf st' k = turnsOf st k) ∧
        (∀ k, metaOf st' k = metaOf st k)) ∨
       (resp.turn_advanced = true ∧ resp.ok = true ∧ resp.code = OK ∧
        resp.turn_number = snap.turn_number + 1 ∧ resp.session_id = some sid ∧
        ∃ (final : GameState) (evs : List Event),
          turnsOf st' sid = some (writeTurnFile s.turns (snap.turn_number + 1)
            (⟨snap.turn_number + 1, final, plugin.generate_agent_view final,
              plugin.generate_human_view final, evs⟩ : Snapshot)) ∧
          (∀ k, k ≠ sid → turnsOf st' k = turnsOf st k) ∧
          (∀ k, metaOf st' k = metaOf st k)))) := by
  unfold dispatchSession at h
  split at h
  · simp only [Except.ok.injEq, Prod.mk.injEq] at h
    obtain ⟨hr, hst⟩ := h
    subst hr
    exact Or.inl ⟨rfl, hst.symm⟩
  · exact absurd h (by simp)
  · rename_i meta snap hload
    split at h
    · simp only [Except.ok.injEq, Prod.mk.injEq] at h
      obtain ⟨hr, hst⟩ := h
      subst hr
      exact Or.inl ⟨rfl, hst.symm⟩
    · rename_i plugin hplug
      obtain ⟨s, tn, hsess, _, _, _⟩ := load_session_ok hload
      cases dispatchCommand_ok_cases hsess h with
      | inl hL => exact Or.inr ⟨meta, snap, plugin, s, hload, hsess, hplug, Or.inl hL⟩
      | inr hR =>
          obtain ⟨h1, h2, h3, h4, h5, final, evs, ht, hto, hmo⟩ := hR
          exact Or.inr ⟨meta, snap, plugin, s, hload, hsess, hplug,
            Or.inr ⟨h1, h2, h3, h4, h5, final, evs, ht, hto, hmo⟩⟩

theorem dispatch_ok_cases {plugins : List (String × Plugin)} {st : Store}
    {raw : List (String × JValue)} {resp : Response} {st' : Store}
    (h : dispatch plugins st raw = .ok (resp, st')) :
    (resp.turn_advanced = false ∧ st' = st) ∨
    (resp.turn_advanced = false ∧
      ∃ (sid0 : String) (snap0 : Snapshot), st.session? sid0 = none ∧
        snap0.turn_number = 0 ∧ turnsOf st' sid0 = some [(0, snap0)] ∧
        (∀ k, k ≠ sid0 → turnsOf st' k = turnsOf st k)) ∨
    (resp.turn_advanced = false ∧ (∀ k, turnsOf st' k = turnsOf st k)) ∨
    (resp.turn_advanced = true ∧ resp.ok = true ∧ resp.code = OK ∧
      ∃ (sid : String) (s : SessionData) (meta : Meta) (snap : Snapshot) (plugin : Plugin)
        (final : GameState) (evs : List Event),
        resp.session_id = some sid ∧ st.session? sid = some s ∧
        load_session st sid = .ok (meta, snap) ∧
        resp.turn_number = snap.turn_number + 1 ∧
        turnsOf st' sid = some (writeTurnFile s.turns (snap.turn_number + 1)
          (⟨snap.turn_number + 1, final, plugin.generate_agent_view final,
            plugin.generate_human_view final, evs⟩ : Snapshot)) ∧
        (∀ k, k ≠ sid → turnsOf st' k = turnsOf st k)) := by
  unfold dispatch at h
  split at h
  · -- request validation failed
    split at h
    · exact absurd h (by simp)
    · simp only [Except.ok.injEq, Prod.mk.injEq] at h
      obtain ⟨hr, hst⟩ := h
      subst hr
      exact Or.inl ⟨rfl, hst.symm⟩
  · rename_i req hval
    split_ifs at h with h1 h2
    · -- missing session_id
      simp only [Except.ok.injEq, Prod.mk.injEq] at h
      obtain ⟨hr, hst⟩ := h
      subst hr
      exact Or.inl ⟨rfl, hst.symm⟩
    · -- register
      cases dispatchRegister_ok_cases h with
      | inl hL => exact Or.inl ⟨hL.2.1, hL.2.2.2⟩
      | inr hR =>
          obtain ⟨plugin_id, plugin, initial, _, hadv, _, _, _, _, hcol, ht, hto, _, _⟩ := hR
          refine Or.inr (Or.inl ⟨hadv, freshSessionId st.next_fresh,
            ⟨0, initial, plugin.generate_agent_view initial, plugin.generate_human_view initial,
              [Event.register req.reason req.agent_id plugin_id]⟩,
            hcol, rfl, ht, hto⟩)
    · -- per-session pipeline
      split at h
      · -- session_id some
        rename_i sid hsid
        cases dispatchSession_ok_cases h with
        | inl hL => exact Or.inl ⟨hL.1, hL.2⟩
        | inr hR =>
            obtain ⟨meta, snap, plugin, s, hload, hsess, hplug, hcase⟩ := hR
            cases hcase with
            | inl hL2 => exact Or.inr (Or.inr (Or.inl ⟨hL2.1, hL2.2.1⟩))
            | inr hR2 =>
                obtain ⟨h1a, h2a, h3a, h4a, h5a, final, evs, ht, hto, _⟩ := hR2
                exact Or.inr (Or.inr (Or.inr ⟨h1a, h2a, h3a, sid, s, meta, snap, plugin,
                  final, evs, h5a, hsess, hload, h4a, ht, hto⟩))
      · -- session_id none (unreachable guard duplicate)
        simp only [Except.ok.injEq, Prod.mk.injEq] at h
        obtain ⟨hr, hst⟩ := h
        subst hr
        exact Or.inl ⟨rfl, hst.symm⟩

theorem wf_of_turns_eq {s1 s2 : SessionData} (he : s2.turns = s1.turns) (h : s1.wf) :
    s2.wf := by
  unfold SessionData.wf at h ⊢
  rw [he]
  exact h

theorem wf_turns_single {s : SessionData} {snap0 : Snapshot} (ht : s.turns = [(0, snap0)])
    (h0 : snap0.turn_number = 0) : s.wf := by
  unfold SessionData.wf
  rw [ht]
  refine ⟨rfl, by simp, ?_⟩
  intro p hp
  rw [List.mem_singleton] at hp
  subst hp
  exact h0

theorem wf_advance {s : SessionData} (hwf : s.wf) {snap' : Snapshot} {s' : SessionData}
    (hkey : snap'.turn_number = Int.ofNat (s.turns.length - 1) + 1)
    (ht : s'.turns = writeTurnFile s.turns (Int.ofNat (s.turns.length - 1) + 1) snap') :
    s'.wf := by
  have hlen := hwf.2.1
  have hnext : Int.ofNat (s.turns.length - 1) + 1 = Int.ofNat s.turns.length := by
    obtain ⟨m, hm⟩ : ∃ m, s.turns.length = m + 1 :=
      ⟨s.turns.length - 1, (Nat.succ_pred_eq_of_pos hlen).symm⟩
    rw [hm]
    simp
  have hfresh : ∀ p ∈ s.turns, p.1 ≠ Int.ofNat (s.turns.length - 1) + 1 := by
    intro p hp
    rw [hnext]
    exact ne_of_lt (wf_keys_lt hwf p hp)
  rw [writeTurnFile_append _ _ _ hfresh] at ht
  unfold SessionData.wf
  rw [ht]
  refine ⟨?_, by simp, ?_⟩
  · rw [List.map_append, hwf.1, List.length_append]
    simp only [List.length_cons, List.length_nil, List.map_cons, List.map_nil]
    rw [intRange_succ, hnext]
  · intro p hp
    rw [List.mem_append] at hp
    cases hp with
    | inl hold => exact hwf.2.2 p hold
    | inr hnew =>
        rw [List.mem_singleton] at hnew
        subst hnew
        exact hkey

theorem turnsOf_eq_some {st : Store} {k : String} {s : SessionData} {l : List (Int × Snapshot)}
    (hk : st.session? k = some s) (ht : turnsOf st k = some l) : s.turns = l := by
  unfold turnsOf at ht
  rw [hk] at ht
  exact Option.some.inj ht

theorem wf_preserved_at {st st' : Store} {k : String} {s' : SessionData}
    (hGood : st.Good) (hp : turnsOf st' k = turnsOf st k) (hk : st'.session? k = some s') :
    s'.wf := by
  have h1 : turnsOf st k = some s'.turns := by
    rw [← hp]
    unfold turnsOf
    rw [hk]
    rfl
  unfold turnsOf at h1
  cases hs2 : st.session? k with
  | none => rw [hs2] at h1; exact absurd h1 (by simp)
  | some s2 =>
      rw [hs2] at h1
      have h2 : s2.turns = s'.turns := Option.some.inj h1
      exact wf_of_turns_eq h2.symm (hGood k s2 hs2)

theorem dispatch_preserves_good {plugins : List (String × Plugin)} {st : Store}
    {raw : List (String × JValue)} {resp : Response} {st' : Store}
    (hGood : st.Good) (h : dispatch plugins st raw = .ok (resp, st')) : st'.Good := by
  rcases dispatch_ok_cases h with ⟨_, rfl⟩ |
    ⟨_, sid0, snap0, hnone, h0, ht, hpres⟩ | ⟨_, hpres⟩ |
    ⟨_, _, _, sid, s, meta, snap, plugin, final, evs, hsid, hsess, hload, htn, ht, hpres⟩
  · exact hGood
  · intro k s' hk
    by_cases hks : k = sid0
    · subst hks
      exact wf_turns_single (turnsOf_eq_some hk ht) h0
    · exact wf_preserved_at hGood (hpres k hks) hk
  · intro k s' hk
    exact wf_preserved_at hGood (hpres k) hk
  · intro k s' hk
    by_cases hks : k = sid
    · subst hks
      obtain ⟨s2, hs2, hwf2, _, hfield, _, _⟩ := load_session_wf hGood hload
      rw [hsess] at hs2
      have hseq : s2 = s := Option.some.inj hs2.symm
      subst hseq
      have hturns := turnsOf_eq_some hk ht
      rw [hfield] at hturns
      exact wf_advance hwf2 rfl hturns
    · exact wf_preserved_at hGood (hpres k hks) hk

/-- Stores reachable from session creation onward: the empty store
followed by any sequence of successful `dispatch` calls, with any
plugin registry per call. -/
inductive Reachable : Store → Prop where
  | init : Reachable emptyStore
  | step {plugins : List (String × Plugin)} {st st' : Store}
      {raw : List (String × JValue)} {resp : Response} :
      Reachable st → dispatch plugins st raw = .ok (resp, st') → Reachable st'

theorem reachable_good {st : Store} (h : Reachable st) : st.Good := by
  induction h with
  | init =>
      intro k s hk
      exact absurd hk (by simp [Store.session?, emptyStore, alookup])
  | step hr hd ih => exact dispatch_preserves_good ih hd

/-! ## Path reduction lemmas for dispatch -/

theorem dispatch_eq_invalid {raw : List (String × JValue)} {msg : String}
    {sidv : Option String} (hval : validateRequest raw = .error msg)
    (hsid : rawSessionId raw = .ok sidv) (plugins : List (String × Plugin)) (st : Store) :
    dispatch plugins st raw
      = .ok (mkResponse false INVALID_ARGS msg [] false 0 false none sidv, st) := by
  unfold dispatch
  rw [hval]
  dsimp only
  rw [hsid]

theorem dispatch_invalid_error {raw : List (String × JValue)} {msg : String} {e : PyError}
    (hval : validateRequest raw = .error msg) (hsid : rawSessionId raw = .error e)
    (plugins : List (String × Plugin)) (st : Store) :
    dispatch plugins st raw = .error e := by
  unfold dispatch
  rw [hval]
  dsimp only
  rw [hsid]

theorem dispatch_eq_register {raw : List (String × JValue)} {req : Request}
    (hval : validateRequest raw = .ok req) (hreg : req.command = "register")
    (plugins : List (String × Plugin)) (st : Store) :
    dispatch plugins st raw = dispatchRegister plugins st req := by
  unfold dispatch
  rw [hval]
  dsimp only
  rw [if_neg (fun hh => hh.1 hreg), if_pos hreg]

theorem dispatch_eq_session {raw : List (String × JValue)} {req : Request} {sid : String}
    (hval : validateRequest raw = .ok req) (hreg : req.command ≠ "register")
    (hsid : req.session_id = some sid) (hne : sid ≠ "")
    (plugins : List (String × Plugin)) (st : Store) :
    dispatch plugins st raw = dispatchSession plugins st req sid := by
  unfold dispatch
  rw [hval]
  dsimp only
  have h1 : ¬ (req.command ≠ "register" ∧ req.session_id.getD "" = "") := by
    rw [hsid]
    exact fun hh => hne hh.2
  rw [if_neg h1, if_neg hreg, hsid]

theorem dispatchSession_eq_command {plugins : List (String × Plugin)} {st : Store}
    {req : Request} {sid : String} {meta : Meta} {snap : Snapshot} {plugin : Plugin}
    (hload : load_session st sid = .ok (meta, snap))
    (hplug : alookup plugins meta.plugin_id = some plugin) :
    dispatchSession plugins st req sid = dispatchCommand st req sid meta snap plugin := by
  unfold dispatchSession
  rw [hload]
  dsimp only
  rw [hplug]

theorem dispatchCommand_eq_advance {st : Store} {req : Request} {sid : String} {meta : Meta}
    {snap : Snapshot} {plugin : Plugin} {d : List (String × JValue)} {ns : GameState}
    {code msg : String} {succ : Bool}
    (hfw : FRAMEWORK_COMMANDS.contains req.command = false)
    (hstd : STANDARD_COMMANDS.contains req.command = true)
    (hsup : (supportedCommands plugin.manifest).contains req.command = true)
    (hexec : plugin.execute req.command req.args snap.canonical_state
        ⟨sid, req.agent_id, req.reason, snap.turn_number⟩ = .ok (d, ns, code, msg, succ)) :
    dispatchCommand st req sid meta snap plugin
      = dispatchAdvance st req sid snap plugin snap.canonical_state
          (state_hash snap.canonical_state.toJ) d ns code msg succ := by
  unfold dispatchCommand
  simp only [deepcopy]
  have h1 : ¬ (FRAMEWORK_COMMANDS.contains req.command = true) := by
    rw [hfw]
    simp
  have h2 : ¬ ¬ (STANDARD_COMMANDS.contains req.command = true) := by
    rw [hstd]
    simp
  have h3 : ¬ ¬ ((supportedCommands plugin.manifest).contains req.command = true) := by
    rw [hsup]
    simp
  rw [if_neg h1, if_neg h2, if_neg h3, hexec]

/-! ## Claim theorems -/

/-- C1: for every dispatched request whose command the plugin
classifies as an action and whose execute call returns code OK with
action_succeeded true, dispatch writes exactly one new turn snapshot:
the turn files become the old ones plus a single new file numbered
previous-latest-plus-one, the snapshot records that number, and its
event list is either the single agent action event, or that event
followed by one opponent_step event, in that order. -/
theorem dispatch_action_success_writes_one_snapshot
    {plugins : List (String × Plugin)} {st : Store} {raw : List (String × JValue)}
    {req : Request} {sid : String} {meta : Meta} {snap : Snapshot} {plugin : Plugin}
    {d : List (String × JValue)} {ns : GameState} {msg : String}
    {resp : Response} {st' : Store} {s : SessionData}
    (hGood : st.Good)
    (hval : validateRequest raw = .ok req)
    (hreg : req.command ≠ "register")
    (hsid : req.session_id = some sid) (hne : sid ≠ "")
    (hload : load_session st sid = .ok (meta, snap))
    (hplug : alookup plugins meta.plugin_id = some plugin)
    (hfw : FRAMEWORK_COMMANDS.contains req.command = false)
    (hstd : STANDARD_COMMANDS.contains req.command = true)
    (hsup : (supportedCommands plugin.manifest).contains req.command = true)
    (hact : plugin.is_action req.command = true)
    (hexec : plugin.execute req.command req.args snap.canonical_state
        ⟨sid, req.agent_id, req.reason, snap.turn_number⟩ = .ok (d, ns, OK, msg, true))
    (hsess : st.session? sid = some s)
    (hdisp : dispatch plugins st raw = .ok (resp, st')) :
    st.latest_turn sid = .ok snap.turn_number ∧
    ∃ snap' : Snapshot,
      turnsOf st' sid = some (s.turns ++ [(snap.turn_number + 1, snap')]) ∧
      snap'.turn_number = snap.turn_number + 1 ∧
      (snap'.events = [Event.action req.command req.reason req.args ns.last_move] ∨
       ∃ m : Move, snap'.events =
         [Event.action req.command req.reason req.args ns.last_move,
          Event.opponent_step m]) := by
  obtain ⟨s2, hs2, hwf, _, hfield, _, hlat⟩ := load_session_wf hGood hload
  rw [hsess] at hs2
  have hseq : s2 = s := Option.some.inj hs2.symm
  subst hseq
  rw [dispatch_eq_session hval hreg hsid hne, dispatchSession_eq_command hload hplug,
    dispatchCommand_eq_advance hfw hstd hsup hexec] at hdisp
  refine ⟨hlat, ?_⟩
  cases dispatchAdvance_ok_cases hsess hdisp with
  | inl hL => exact absurd ⟨hact, rfl, rfl⟩ hL.1
  | inr hR =>
      obtain ⟨_, _, _, final, evs, hevs, _, ht, _, _⟩ := hR
      have hfresh : ∀ p ∈ s2.turns, p.1 ≠ snap.turn_number + 1 := by
        intro p hp
        have hlt := wf_keys_lt hwf p hp
        have hnext : snap.turn_number + 1 = Int.ofNat s2.turns.length := by
          rw [hfield]
          obtain ⟨m, hm⟩ : ∃ m, s2.turns.length = m + 1 :=
            ⟨s2.turns.length - 1, (Nat.succ_pred_eq_of_pos hwf.2.1).symm⟩
          rw [hm]
          simp
        rw [hnext]
        exact ne_of_lt hlt
      rw [writeTurnFile_append _ _ _ hfresh] at ht
      exact ⟨⟨snap.turn_number + 1, final, plugin.generate_agent_view final,
        plugin.generate_human_view final, evs⟩, ht, rfl, hevs⟩

/-- Witness for C1: register then move at the corner; the execute call
succeeds with OK, and the new turn 1 snapshot holds the action event
followed by the opponent event. -/
theorem dispatch_action_success_writes_one_snapshot_witness :
    TicTacToe.plugin.execute moveReq.command moveReq.args snap0w.canonical_state
      ⟨"session-0", moveReq.agent_id, moveReq.reason, snap0w.turn_number⟩
      = .ok (execD1, execNs1, OK, execMsg1, true) ∧
    store1.latest_turn "session-0" = .ok snap0w.turn_number ∧
    (∃ snap' : Snapshot,
      turnsOf store2 "session-0" = some (sess1w.turns ++ [(snap0w.turn_number + 1, snap')]) ∧
      snap'.turn_number = snap0w.turn_number + 1 ∧
      (snap'.events = [Event.action moveReq.command moveReq.reason moveReq.args
          execNs1.last_move] ∨
       ∃ m : Move, snap'.events =
         [Event.action moveReq.command moveReq.reason moveReq.args execNs1.last_move,
          Event.opponent_step m])) := by
  have hGood : store1.Good := reachable_good (Reachable.step Reachable.init
    (show dispatch tictactoePlugins emptyStore regRaw = Except.ok (regResp, store1) from rfl))
  have hmain := dispatch_action_success_writes_one_snapshot hGood
    (show validateRequest moveRaw = Except.ok moveReq from rfl)
    (by decide)
    (show moveReq.session_id = some "session-0" from rfl)
    (by decide)
    (show load_session store1 "session-0" = Except.ok (meta0w, snap0w) from rfl)
    (show alookup tictactoePlugins meta0w.plugin_id = some TicTacToe.plugin from rfl)
    (show FRAMEWORK_COMMANDS.contains moveReq.command = false from rfl)
    (show STANDARD_COMMANDS.contains moveReq.command = true from rfl)
    (show (supportedCommands TicTacToe.plugin.manifest).contains moveReq.command = true
      from rfl)
    (show TicTacToe.plugin.is_action moveReq.command = true from rfl)
    (show TicTacToe.plugin.execute moveReq.command moveReq.args snap0w.canonical_state
        ⟨"session-0", moveReq.agent_id, moveReq.reason, snap0w.turn_number⟩
        = Except.ok (execD1, execNs1, OK, execMsg1, true) from rfl)
    (show store1.session? "session-0" = some sess1w from rfl)
    (show dispatch tictactoePlugins store1 moveRaw = Except.ok (moveResp, store2) from rfl)
  exact ⟨rfl, hmain.1, hmain.2⟩

/-- C3: for every dispatched action command whose execute call fails
(non-OK code or action_succeeded false), no new turn snapshot is
written, the stored turns and metadata of every session are unchanged,
and the response carries turn_advanced false with turn_number equal to
the turn in effect when the request arrived and the plugin's code; the
witness below re-issues a just-successful tic-tac-toe move and gets
INVALID_MOVE with the turn number unchanged. -/
theorem dispatch_action_failure_no_advance
    {plugins : List (String × Plugin)} {st : Store} {raw : List (String × JValue)}
    {req : Request} {sid : String} {meta : Meta} {snap : Snapshot} {plugin : Plugin}
    {d : List (String × JValue)} {ns : GameState} {code msg : String} {succ : Bool}
    {resp : Response} {st' : Store} {s : SessionData}
    (hval : validateRequest raw = .ok req)
    (hreg : req.command ≠ "register")
    (hsid : req.session_id = some sid) (hne : sid ≠ "")
    (hload : load_session st sid = .ok (meta, snap))
    (hplug : alookup plugins meta.plugin_id = some plugin)
    (hfw : FRAMEWORK_COMMANDS.contains req.command = false)
    (hstd : STANDARD_COMMANDS.contains req.command = true)
    (hsup : (supportedCommands plugin.manifest).contains req.command = true)
    (hact : plugin.is_action req.command = true)
    (hexec : plugin.execute req.command req.args snap.canonical_state
        ⟨sid, req.agent_id, req.reason, snap.turn_number⟩ = .ok (d, ns, code, msg, succ))
    (hfail : code ≠ OK ∨ succ = false)
    (hsess : st.session? sid = some s)
    (hdisp : dispatch plugins st raw = .ok (resp, st')) :
    resp.turn_advanced = false ∧ resp.turn_number = snap.turn_number ∧ resp.code = code ∧
    (∀ k, turnsOf st' k = turnsOf st k) ∧ (∀ k, metaOf st' k = metaOf st k) := by
  rw [dispatch_eq_session hval hreg hsid hne, dispatchSession_eq_command hload hplug,
    dispatchCommand_eq_advance hfw hstd hsup hexec] at hdisp
  cases dispatchAdvance_ok_cases hsess hdisp with
  | inl hL =>
      obtain ⟨_, hr, hto, hmo⟩ := hL
      subst hr
      exact ⟨rfl, rfl, rfl, hto, hmo⟩
  | inr hR =>
      obtain ⟨_, hsucc, hcode, _⟩ := hR
      cases hfail with
      | inl hc => exact absurd hcode hc
      | inr hs =>
          rw [hs] at hsucc
          exact absurd hsucc (by simp)

/-- Witness for C3: after register and a successful move at (0, 0),
re-issuing the identical move returns INVALID_MOVE, does not advance
the turn, leaves the store's turns unchanged, and reports turn 1. -/
theorem dispatch_action_failure_no_advance_witness :
    exec2Code = INVALID_MOVE ∧ exec2Succ = false ∧ snap1w.turn_number = 1 ∧
    move2Resp.turn_advanced = false ∧ move2Resp.turn_number = snap1w.turn_number ∧
    move2Resp.code = exec2Code ∧
    (∀ k, turnsOf store3 k = turnsOf store2 k) ∧
    (∀ k, metaOf store3 k = metaOf store2 k) := by
  have hmain := dispatch_action_failure_no_advance
    (show validateRequest move2Raw = Except.ok move2Req from rfl)
    (by decide)
    (show move2Req.session_id = some "session-0" from rfl)
    (by decide)
    (show load_session store2 "session-0" = Except.ok (meta1w, snap1w) from rfl)
    (show alookup tictactoePlugins meta1w.plugin_id = some TicTacToe.plugin from rfl)
    (show FRAMEWORK_COMMANDS.contains move2Req.command = false from rfl)
    (show STANDARD_COMMANDS.contains move2Req.command = true from rfl)
    (show (supportedCommands TicTacToe.plugin.manifest).contains move2Req.command = true
      from rfl)
    (show TicTacToe.plugin.is_action move2Req.command = true from rfl)
    (show TicTacToe.plugin.execute move2Req.command move2Req.args snap1w.canonical_state
        ⟨"session-0", move2Req.agent_id, move2Req.reason, snap1w.turn_number⟩
        = Except.ok (exec2D, exec2Ns, exec2Code, exec2Msg, exec2Succ) from rfl)
    (Or.inl (by decide))
    (show store2.session? "session-0" = some sess2w from rfl)
    (show dispatch tictactoePlugins store2 move2Raw = Except.ok (move2Resp, store3) from rfl)
  exact ⟨rfl, rfl, rfl, hmain.1, hmain.2.1, hmain.2.2.1, hmain.2.2.2.1, hmain.2.2.2.2⟩

/-- C4: for every response returned by dispatch on a well-formed store,
turn_advanced true implies the code is OK, the response names a
session, and turn_number is exactly the newly created snapshot's
number, the previous latest turn plus one. -/
theorem turn_advanced_implies_ok_and_new_turn
    {plugins : List (String × Plugin)} {st : Store} {raw : List (String × JValue)}
    {resp : Response} {st' : Store}
    (hGood : st.Good)
    (hdisp : dispatch plugins st raw = .ok (resp, st'))
    (hadv : resp.turn_advanced = true) :
    resp.code = OK ∧ resp.ok = true ∧
    ∃ (sid : String) (s : SessionData) (snap' : Snapshot),
      resp.session_id = some sid ∧ st.session? sid = some s ∧
      st.latest_turn sid = .ok (resp.turn_number - 1) ∧
      turnsOf st' sid = some (s.turns ++ [(resp.turn_number, snap')]) ∧
      snap'.turn_number = resp.turn_number := by
  rcases dispatch_ok_cases hdisp with ⟨hf, _⟩ | ⟨hf, _⟩ | ⟨hf, _⟩ |
    ⟨_, hok, hcode, sid, s, meta, snap, plugin, final, evs, hsid, hsess, hload, htn, ht, _⟩
  · rw [hf] at hadv; exact absurd hadv (by simp)
  · rw [hf] at hadv; exact absurd hadv (by simp)
  · rw [hf] at hadv; exact absurd hadv (by simp)
  · obtain ⟨s2, hs2, hwf, _, hfield, _, hlat⟩ := load_session_wf hGood hload
    rw [hsess] at hs2
    have hseq : s2 = s := Option.some.inj hs2.symm
    subst hseq
    have hfresh : ∀ p ∈ s2.turns, p.1 ≠ snap.turn_number + 1 := by
      intro p hp
      have hlt := wf_keys_lt hwf p hp
      have hnext : snap.turn_number + 1 = Int.ofNat s2.turns.length := by
        rw [hfield]
        obtain ⟨m, hm⟩ : ∃ m, s2.turns.length = m + 1 :=
          ⟨s2.turns.length - 1, (Nat.succ_pred_eq_of_pos hwf.2.1).symm⟩
        rw [hm]
        simp
      rw [hnext]
      exact ne_of_lt hlt
    rw [writeTurnFile_append _ _ _ hfresh] at ht
    refine ⟨hcode, hok, sid, s2,
      ⟨snap.turn_number + 1, final, plugin.generate_agent_view final,
       plugin.generate_human_view final, evs⟩, hsid, hsess, ?_, ?_, ?_⟩
    · rw [htn]
      have harith : snap.turn_number + 1 - 1 = snap.turn_number := by ring
      rw [harith]
      exact hlat
    · rw [htn]
      exact ht
    · rw [htn]

/-- Witness for C4: the successful corner move advances the turn; the
theorem yields code OK and turn 1 as the newly written snapshot of the
registered session. -/
theorem turn_advanced_implies_ok_and_new_turn_witness :
    moveResp.turn_advanced = true ∧ moveResp.code = OK ∧ moveResp.ok = true ∧
    (∃ (sid : String) (s : SessionData) (snap' : Snapshot),
      moveResp.session_id = some sid ∧ store1.session? sid = some s ∧
      store1.latest_turn sid = .ok (moveResp.turn_number - 1) ∧
      turnsOf store2 sid = some (s.turns ++ [(moveResp.turn_number, snap')]) ∧
      snap'.turn_number = moveResp.turn_number) := by
  have hGood : store1.Good := reachable_good (Reachable.step Reachable.init
    (show dispatch tictactoePlugins emptyStore regRaw = Except.ok (regResp, store1) from rfl))
  have hmain := turn_advanced_implies_ok_and_new_turn hGood
    (show dispatch tictactoePlugins store1 moveRaw = Except.ok (moveResp, store2) from rfl)
    (show moveResp.turn_advanced = true from rfl)
  exact ⟨rfl, hmain.1, hmain.2.1, hmain.2.2⟩

/-- C2: for every store reachable from session creation by dispatch
calls, the turn numbers persisted for every session are exactly the
contiguous range 0..latest_turn with no gaps, and turn 0 exists. -/
theorem turns_contiguous_from_creation {st : Store} (hreach : Reachable st) :
    ∀ sid s, st.session? sid = some s →
      0 < s.turns.length ∧
      st.list_turns sid = intRange s.turns.length ∧
      st.latest_turn sid = .ok (Int.ofNat (s.turns.length - 1)) := by
  have hGood := reachable_good hreach
  intro sid s hs
  have hwf := hGood sid s hs
  exact ⟨hwf.2.1, wf_list_turns hs hwf, wf_latest_turn hs hwf⟩

/-- Witness for C2: after register and one move, the session's turn
files are exactly 0 and 1 and the latest turn is 1. -/
theorem turns_contiguous_from_creation_witness :
    store2.session? "session-0" = some sess2w ∧ sess2w.turns.length = 2 ∧
    0 < sess2w.turns.length ∧
    store2.list_turns "session-0" = intRange sess2w.turns.length ∧
    store2.latest_turn "session-0" = .ok (Int.ofNat (sess2w.turns.length - 1)) := by
  have hreach : Reachable store2 := Reachable.step (Reachable.step Reachable.init
    (show dispatch tictactoePlugins emptyStore regRaw = Except.ok (regResp, store1) from rfl))
    (show dispatch tictactoePlugins store1 moveRaw = Except.ok (moveResp, store2) from rfl)
  have hmain := turns_contiguous_from_creation hreach "session-0" sess2w rfl
  exact ⟨rfl, rfl, hmain.1, hmain.2.1, hmain.2.2⟩

theorem exbind_ok_inv {ε α β : Type} {x : Except ε α} {f : α → Except ε β} {b : β}
    (h : (x >>= f) = .ok b) : ∃ a, x = .ok a ∧ f a = .ok b := by
  cases x with
  | error e => rw [exbind_err] at h; exact absurd h (by simp)
  | ok a => rw [exbind_ok] at h; exact ⟨a, rfl, h⟩

/-- A validated request always carries a string `reason` read from the
raw mapping: the pydantic field is a required strict string. -/
theorem validateRequest_ok_reason {raw : List (String × JValue)} {req : Request}
    (h : validateRequest raw = .ok req) :
    alookup raw "reason" = some (.str req.reason) := by
  unfold validateRequest at h
  split_ifs at h
  obtain ⟨sid1, hs1, h⟩ := exbind_ok_inv h
  obtain ⟨ag, ha, h⟩ := exbind_ok_inv h
  obtain ⟨cm, hc, h⟩ := exbind_ok_inv h
  obtain ⟨ar, har, h⟩ := exbind_ok_inv h
  obtain ⟨re, hre, h⟩ := exbind_ok_inv h
  have hreq : req = { session_id := sid1, agent_id := ag, command := cm, args := ar, reason := re } := (Except.ok.inj h).symm
  unfold getStrField at hre
  split at hre
  · rename_i s5 heq5
    rw [hreq]
    rw [heq5]
    have : re = s5 := (Except.ok.inj hre).symm
    rw [this]
  · exact absurd hre (by simp)

/-- C6 (amended): for every request whose `reason` field is absent or
not a string, dispatch rejects it with INVALID_ARGS before any session
lookup (the store is arbitrary and returned unchanged, so no audit log
entry is written); the proviso `rawSessionId raw = .ok sidv` records
that the echoed session_id is absent, null or a string — otherwise the
error-response construction itself raises. An empty-string reason
passes validation (see the counterexample). -/
theorem missing_or_nonstring_reason_rejected
    {raw : List (String × JValue)} {sidv : Option String}
    (hreason : ∀ s, alookup raw "reason" ≠ some (JValue.str s))
    (hsid : rawSessionId raw = .ok sidv)
    (plugins : List (String × Plugin)) (st : Store) :
    ∃ m, dispatch plugins st raw
      = .ok (mkResponse false INVALID_ARGS m [] false 0 false none sidv, st) := by
  cases hv : validateRequest raw with
  | ok req => exact absurd (validateRequest_ok_reason hv) (hreason req.reason)
  | error m => exact ⟨m, dispatch_eq_invalid hv hsid plugins st⟩

/-- Counterexample for C6: a register request whose reason is the empty
string — not a non-empty string — is accepted with code OK rather than
rejected with INVALID_ARGS. -/
theorem empty_reason_not_rejected :
    (dispatch tictactoePlugins emptyStore emptyReasonRaw).map (fun p => (p.1.ok, p.1.code))
      = .ok (true, OK) := rfl

/-- Witness for C6 (amended): a register request with no reason field
at all is rejected with INVALID_ARGS on any store, here the empty one,
with the store returned unchanged. -/
theorem missing_or_nonstring_reason_rejected_witness :
    rawSessionId [("agent_id", JValue.str "agent-1"), ("command", JValue.str "register")]
      = .ok none ∧
    (∃ m, dispatch tictactoePlugins emptyStore
        [("agent_id", JValue.str "agent-1"), ("command", JValue.str "register")]
      = .ok (mkResponse false INVALID_ARGS m [] false 0 false none none, emptyStore)) := by
  refine ⟨rfl, ?_⟩
  exact missing_or_nonstring_reason_rejected
    (fun s h => Option.noConfusion h)
    (show rawSessionId [("agent_id", JValue.str "agent-1"),
      ("command", JValue.str "register")] = .ok none from rfl)
    tictactoePlugins emptyStore

/-- C10 (amended): for every request mapping containing a key outside
the five envelope fields, dispatch rejects it with ok false and code
INVALID_ARGS during validation, before any session lookup, state
change or audit write (any store, returned unchanged) — provided the
raw session_id field is absent, null or a string, since otherwise the
error-response construction itself raises (see the counterexample). -/
theorem extra_key_rejected {raw : List (String × JValue)} {k : String} {v : JValue}
    {sidv : Option String}
    (hmem : (k, v) ∈ raw) (hk : allowedKeys.contains k = false)
    (hsid : rawSessionId raw = .ok sidv)
    (plugins : List (String × Plugin)) (st : Store) :
    dispatch plugins st raw
      = .ok (mkResponse false INVALID_ARGS "extra fields are not permitted" [] false 0
          false none sidv, st) := by
  have hfail : validateRequest raw = .error "extra fields are not permitted" := by
    unfold validateRequest
    rw [if_neg]
    intro hall
    rw [List.all_eq_true] at hall
    have hcontains := hall (k, v) hmem
    rw [hk] at hcontains
    exact absurd hcontains (by simp)
  exact dispatch_eq_invalid hfail hsid plugins st

/-- Counterexample for C10: a request with the extra key `weird` and an
integer session_id is not answered with an INVALID_ARGS envelope — the
error-response construction raises an uncaught validation error
instead. -/
theorem extra_key_with_bad_session_id_raises :
    dispatch tictactoePlugins emptyStore extraKeyRaw
      = .error (.validationError "session_id is not a valid string") := rfl

/-- Witness for C10 (amended): a ping request with the extra key
`weird` and no session_id is rejected with INVALID_ARGS on the empty
store, which is returned unchanged. -/
theorem extra_key_rejected_witness :
    (("weird", JValue.null) ∈
      ([("weird", JValue.null), ("agent_id", JValue.str "agent-1"),
        ("command", JValue.str "ping"), ("reason", JValue.str "probe")] :
        List (String × JValue))) ∧
    allowedKeys.contains "weird" = false ∧
    dispatch tictactoePlugins emptyStore
        [("weird", JValue.null), ("agent_id", JValue.str "agent-1"),
         ("command", JValue.str "ping"), ("reason", JValue.str "probe")]
      = .ok (mkResponse false INVALID_ARGS "extra fields are not permitted" [] false 0
          false none none, emptyStore) := by
  refine ⟨List.mem_cons_self _ _, rfl, ?_⟩
  exact extra_key_rejected
    (show (("weird", JValue.null)) ∈
      ([("weird", JValue.null), ("agent_id", JValue.str "agent-1"),
        ("command", JValue.str "ping"), ("reason", JValue.str "probe")] :
        List (String × JValue)) from List.mem_cons_self _ _)
    (show allowedKeys.contains "weird" = false from rfl)
    (show rawSessionId [("weird", JValue.null), ("agent_id", JValue.str "agent-1"),
      ("command", JValue.str "ping"), ("reason", JValue.str "probe")] = .ok none from rfl)
    tictactoePlugins emptyStore

/-- C5 (code bug): a framework view request whose args.turn_number is a
string escapes dispatch as an uncaught formatting error instead of the
structurally complete envelope the spec promises: on the registered
session, view with turn_number "zero" evaluates to a raised
ValueError. -/
theorem view_string_turn_number_raises :
    dispatch tictactoePlugins store1 viewBadRaw
      = .error (.valueError "Unknown format code d") := rfl

/-- C9: for every valid register request, dispatch ignores any supplied
session_id: a successful registration creates a brand-new session under
the freshly generated identifier, the response names that identifier
(which differs from the supplied one), and the pre-existing session
named by the supplied identifier keeps its turns, metadata and audit
log untouched. -/
theorem register_creates_fresh_session
    {plugins : List (String × Plugin)} {st : Store} {raw : List (String × JValue)}
    {req : Request} {oldSid : String} {oldSess : SessionData} {resp : Response} {st' : Store}
    (hval : validateRequest raw = .ok req)
    (hreg : req.command = "register")
    (hsupplied : req.session_id = some oldSid)
    (hold : st.session? oldSid = some oldSess)
    (hok : resp.ok = true)
    (hdisp : dispatch plugins st raw = .ok (resp, st')) :
    resp.session_id = some (freshSessionId st.next_fresh) ∧
    freshSessionId st.next_fresh ≠ oldSid ∧
    st.session? (freshSessionId st.next_fresh) = none ∧
    turnsOf st' oldSid = turnsOf st oldSid ∧
    metaOf st' oldSid = metaOf st oldSid ∧
    logOf st' oldSid = logOf st oldSid := by
  rw [dispatch_eq_register hval hreg] at hdisp
  cases dispatchRegister_ok_cases hdisp with
  | inl hL =>
      rw [hL.1] at hok
      exact absurd hok (by simp)
  | inr hR =>
      obtain ⟨pid, plugin, initial, _, _, _, _, _, hsid9, hcol, _, hto, hmo, hlo⟩ := hR
      have hne : freshSessionId st.next_fresh ≠ oldSid := by
        intro he
        rw [he, hold] at hcol
        exact Option.noConfusion hcol
      have hne2 : oldSid ≠ freshSessionId st.next_fresh := fun he => hne he.symm
      exact ⟨hsid9, hne, hcol, hto oldSid hne2, hmo oldSid hne2, hlo oldSid hne2⟩

/-- Witness for C9: a register request carrying the existing session-0
identifier creates session-1 instead and leaves session-0 untouched. -/
theorem register_creates_fresh_session_witness :
    reRegisterReq.session_id = some "session-0" ∧
    store1.session? "session-0" = some sess1w ∧ reRegResp.ok = true ∧
    reRegResp.session_id = some (freshSessionId store1.next_fresh) ∧
    freshSessionId store1.next_fresh ≠ "session-0" ∧
    store1.session? (freshSessionId store1.next_fresh) = none ∧
    turnsOf store1b "session-0" = turnsOf store1 "session-0" ∧
    metaOf store1b "session-0" = metaOf store1 "session-0" ∧
    logOf store1b "session-0" = logOf store1 "session-0" := by
  have hmain := register_creates_fresh_session
    (show validateRequest reRegisterRaw = Except.ok reRegisterReq from rfl)
    (show reRegisterReq.command = "register" from rfl)
    (show reRegisterReq.session_id = some "session-0" from rfl)
    (show store1.session? "session-0" = some sess1w from rfl)
    (show reRegResp.ok = true from rfl)
    (show dispatch tictactoePlugins store1 reRegisterRaw = Except.ok (reRegResp, store1b)
      from rfl)
  exact ⟨rfl, rfl, rfl, hmain.1, hmain.2.1, hmain.2.2.1, hmain.2.2.2.1,
    hmain.2.2.2.2.1, hmain.2.2.2.2.2⟩

/-- C7: for every dispatched view command on an existing session, the
requested turn is args.turn_number when present, defaulting to the
latest turn; if the requested turn exists the response returns its
snapshot with code OK, otherwise the code is INVALID_ARGS; in either
case no session's turns or metadata are mutated and the turn does not
advance. -/
theorem view_returns_requested_turn
    {plugins : List (String × Plugin)} {st : Store} {raw : List (String × JValue)}
    {req : Request} {sid : String} {meta : Meta} {snap : Snapshot} {plugin : Plugin}
    {resp : Response} {st' : Store} {r : Int}
    (hval : validateRequest raw = .ok req)
    (hcmd : req.command = "view")
    (hsid : req.session_id = some sid) (hne : sid ≠ "")
    (hload : load_session st sid = .ok (meta, snap))
    (hplug : alookup plugins meta.plugin_id = some plugin)
    (hreqt : (alookup req.args "turn_number").getD (.int snap.turn_number) = .int r)
    (hdisp : dispatch plugins st raw = .ok (resp, st')) :
    resp.turn_advanced = false ∧
    (∀ k, turnsOf st' k = turnsOf st k) ∧ (∀ k, metaOf st' k = metaOf st k) ∧
    ((∃ vs, st.read_turn meta.session_id r = .ok vs ∧ resp.ok = true ∧ resp.code = OK ∧
        resp.data = [("snapshot", vs.toJ)]) ∨
     ((∀ vs, st.read_turn meta.session_id r ≠ .ok vs) ∧ resp.ok = false ∧
        resp.code = INVALID_ARGS)) := by
  have hreg : req.command ≠ "register" := by
    rw [hcmd]
    decide
  rw [dispatch_eq_session hval hreg hsid hne,
    dispatchSession_eq_command hload hplug] at hdisp
  unfold dispatchCommand at hdisp
  simp only [deepcopy] at hdisp
  have hfw : FRAMEWORK_COMMANDS.contains req.command = true := by
    rw [hcmd]
    rfl
  rw [if_pos hfw] at hdisp
  obtain ⟨r0, hhf, hrest⟩ := exbind_ok_inv hdisp
  obtain ⟨st1, hlog, hfin⟩ := exbind_ok_inv hrest
  have hpair : (r0, st1) = (resp, st') := Except.ok.inj hfin
  injection hpair with hr0 hst1
  subst hr0
  subst hst1
  refine ⟨?_, append_log_turnsOf hlog, append_log_metaOf hlog, ?_⟩
  · exact handle_framework_not_advanced hhf
  · unfold handle_framework_command at hhf
    rw [hcmd] at hhf
    split_ifs at hhf with p1 p2 p3 p4
    · exact absurd p1 (by decide)
    · exact absurd p2 (by decide)
    · exact absurd p3 (by decide)
    · exact absurd p4 (by decide)
    dsimp only at hhf
    rw [hreqt] at hhf
    unfold Store.read_turn_value at hhf
    dsimp only at hhf
    cases hrt : st.read_turn meta.session_id r with
    | ok vs =>
        rw [hrt] at hhf
        dsimp only at hhf
        have hv := Except.ok.inj hhf
        subst hv
        exact Or.inl ⟨vs, rfl, rfl, rfl, rfl⟩
    | error e =>
        rw [hrt] at hhf
        cases e with
        | fileNotFound m =>
            dsimp only at hhf
            have hv := Except.ok.inj hhf
            subst hv
            refine Or.inr ⟨?_, rfl, rfl⟩
            intro vs hvs
            exact Except.noConfusion hvs
        | fileExists m => exact absurd hhf (by simp)
        | valueError m => exact absurd hhf (by simp)
        | attributeError m => exact absurd hhf (by simp)
        | validationError m => exact absurd hhf (by simp)

/-- Witness for C7: a view of turn 7 on a session with only turn 0
returns INVALID_ARGS and mutates neither turns nor metadata. -/
theorem view_returns_requested_turn_witness :
    (alookup view7Req.args "turn_number").getD (.int snap0w.turn_number) = .int 7 ∧
    view7Resp.turn_advanced = false ∧
    (∀ k, turnsOf store1v k = turnsOf store1 k) ∧
    (∀ k, metaOf store1v k = metaOf store1 k) ∧
    ((∃ vs, store1.read_turn meta0w.session_id 7 = .ok vs ∧ view7Resp.ok = true ∧
        view7Resp.code = OK ∧ view7Resp.data = [("snapshot", vs.toJ)]) ∨
     ((∀ vs, store1.read_turn meta0w.session_id 7 ≠ .ok vs) ∧ view7Resp.ok = false ∧
        view7Resp.code = INVALID_ARGS)) := by
  have hmain := view_returns_requested_turn
    (show validateRequest view7Raw = Except.ok view7Req from rfl)
    (show view7Req.command = "view" from rfl)
    (show view7Req.session_id = some "session-0" from rfl)
    (by decide)
    (show load_session store1 "session-0" = Except.ok (meta0w, snap0w) from rfl)
    (show alookup tictactoePlugins meta0w.plugin_id = some TicTacToe.plugin from rfl)
    (show (alookup view7Req.args "turn_number").getD (.int snap0w.turn_number) = .int 7
      from rfl)
    (show dispatch tictactoePlugins store1 view7Raw = Except.ok (view7Resp, store1v)
      from rfl)
  exact ⟨rfl, hmain.1, hmain.2.1, hmain.2.2.1, hmain.2.2.2⟩

/-- C8: the canonical encoding is deterministic: encoding a value twice
yields byte-identical output, and encoding an object whose key-value
pairs are the same but inserted in a different order (keys unique, as
in a Python dict) yields byte-identical output, hence state_hash gives
identical hashes for such logically equal values. -/
theorem stable_json_dumps_deterministic (v : JValue) {fs1 fs2 : List (String × JValue)}
    (hperm : fs1.Perm fs2) (hnd : (fs1.map Prod.fst).Nodup) :
    stable_json_dumps v = stable_json_dumps v ∧
    stable_json_dumps (.obj fs1) = stable_json_dumps (.obj fs2) ∧
    state_hash (.obj fs1) = state_hash (.obj fs2) := by
  have henc : stable_json_dumps (.obj fs1) = stable_json_dumps (.obj fs2) := by
    unfold stable_json_dumps
    rw [canon_obj_eq_of_perm hperm hnd]
  refine ⟨rfl, henc, ?_⟩
  unfold state_hash
  rw [henc]

/-- Witness for C8: the two-field object written in both insertion
orders serializes to the same bytes and hashes identically. -/
theorem stable_json_dumps_deterministic_witness :
    ([("b", JValue.int 1), ("a", JValue.null)] : List (String × JValue)).Perm
      [("a", JValue.null), ("b", JValue.int 1)] ∧
    (([("b", JValue.int 1), ("a", JValue.null)] : List (String × JValue)).map
      Prod.fst).Nodup ∧
    stable_json_dumps (.obj [("b", JValue.int 1), ("a", JValue.null)])
      = stable_json_dumps (.obj [("a", JValue.null), ("b", JValue.int 1)]) ∧
    state_hash (.obj [("b", JValue.int 1), ("a", JValue.null)])
      = state_hash (.obj [("a", JValue.null), ("b", JValue.int 1)]) := by
  have hperm : ([("b", JValue.int 1), ("a", JValue.null)] : List (String × JValue)).Perm
      [("a", JValue.null), ("b", JValue.int 1)] :=
    List.Perm.swap ("a", JValue.null) ("b", JValue.int 1) []
  have hnd : (([("b", JValue.int 1), ("a", JValue.null)] :
      List (String × JValue)).map Prod.fst).Nodup := by decide
  have hmain := stable_json_dumps_deterministic JValue.null hperm hnd
  exact ⟨hperm, hnd, hmain.2.1, hmain.2.2⟩

end AgentGames
